import Mathlib

/-!
Verification development for the BloodGasCases repository
(`bloodgas_generator/python/bloodgas`).

Shallow embedding conventions:
* Python `float` values are modelled as real numbers (`ℝ`).
* Python exceptions (`ValueError`) are modelled with `Except String`.
* The process-wide pseudo-random generator of Python's `random` module is
  modelled as an explicit `RandomState` threaded through every function that
  draws from it; `random.seed` replaces that state by one determined solely
  by the seed.
* Enumerations (`Disorder`, `Severity`, ...) become inductive types.
* Free-text fields (descriptions, teaching points) are omitted: no claim
  refers to them and they never feed back into any numeric computation.
-/

noncomputable section

namespace BloodGas

/-! ## Enumerations (models/disorders.py) -/

/-- Primary acid-base disorder types (`Disorder` in models/disorders.py). -/
inductive Disorder where
  | NORMAL
  | METABOLIC_ACIDOSIS
  | METABOLIC_ALKALOSIS
  | RESPIRATORY_ACIDOSIS
  | RESPIRATORY_ALKALOSIS
  deriving DecidableEq, Repr

/-- Severity levels (`Severity`). -/
inductive Severity where
  | MILD
  | MODERATE
  | SEVERE
  deriving DecidableEq, Repr

/-- Compensation status (`Compensation`). -/
inductive Compensation where
  | NONE
  | PARTIAL
  | APPROPRIATE
  | EXCESSIVE
  deriving DecidableEq, Repr

/-- Duration of a condition (`Duration`). -/
inductive Duration where
  | ACUTE
  | SUBACUTE
  | CHRONIC
  deriving DecidableEq, Repr

/-- Clinical conditions (`ClinicalCondition`). -/
inductive ClinicalCondition where
  | COPD_EXACERBATION
  | ASTHMA_ATTACK
  | PULMONARY_EMBOLISM
  | ARDS
  | PNEUMONIA
  | OPIOID_OVERDOSE
  | HYPERVENTILATION_ANXIETY
  | HYPERVENTILATION_PAIN
  | NEUROMUSCULAR_WEAKNESS
  | DKA
  | HHS
  | LACTIC_ACIDOSIS_SEPSIS
  | LACTIC_ACIDOSIS_SHOCK
  | LACTIC_ACIDOSIS_SEIZURE
  | RENAL_FAILURE_ACUTE
  | RENAL_FAILURE_CHRONIC
  | TOXIC_INGESTION_METHANOL
  | TOXIC_INGESTION_ETHYLENE_GLYCOL
  | TOXIC_INGESTION_SALICYLATE
  | STARVATION_KETOSIS
  | ALCOHOLIC_KETOACIDOSIS
  | DIARRHEA
  | RTA_TYPE1
  | RTA_TYPE2
  | RTA_TYPE4
  | SALINE_INFUSION
  | VOMITING
  | NG_SUCTION
  | DIURETIC_USE
  | HYPOKALEMIA
  | HYPERALDOSTERONISM
  | MILK_ALKALI_SYNDROME
  | POST_HYPERCAPNIA
  | HEALTHY
  | PREGNANCY
  | HIGH_ALTITUDE
  deriving DecidableEq, Repr

/-- Chronic conditions that modify baseline physiology (`ChronicCondition`). -/
inductive ChronicCondition where
  | TYPE1_DIABETES
  | TYPE2_DIABETES
  | COPD
  | CHRONIC_KIDNEY_DISEASE
  | HEART_FAILURE
  | CIRRHOSIS
  | OBESITY_HYPOVENTILATION
  | ANEMIA_CHRONIC
  deriving DecidableEq, Repr

/-- Anion gap categorisation (`AnionGapCategory` in physiology/electrolytes.py). -/
inductive AnionGapCategory where
  | NORMAL
  | ELEVATED
  | LOW
  deriving DecidableEq, Repr

/-- Severity classification of an interpretation
(`InterpretationSeverity` in models/blood_gas_result.py). -/
inductive InterpretationSeverity where
  | NORMAL
  | MILD
  | MODERATE
  | SEVERE
  | CRITICAL
  deriving DecidableEq, Repr

/-! ## Model of Python's global random generator

The `random` module is Python standard library, not repository code.
Modelled from the spec: "supplying a seed must make the entire perturbation
sequence deterministic and repeatable for identical input sequences and call
order", and the pseudo-random generator's internal state "is process-wide and
reseeded explicitly when a caller supplies a seed".  We model the state as a
stream of real draws together with a position; `random.seed` replaces the
whole state by a function of the seed alone. -/

/-- The process-wide random-generator state: a stream of raw draws and the
current position in that stream. -/
structure RandomState where
  stream : ℕ → ℝ
  pos : ℕ

/-- Take the next raw draw from the generator. -/
def RandomState.next (g : RandomState) : ℝ × RandomState :=
  (g.stream g.pos, ⟨g.stream, g.pos + 1⟩)

/-- Modelled from the spec: the deterministic stream of draws produced by the
generator after `random.seed(s)`.  Its exact values are irrelevant to every
claim; only the fact that it is a function of the seed alone matters. -/
def seedStream (seed : ℤ) : ℕ → ℝ :=
  fun n => (seed : ℝ) + (n : ℝ)

/-- Modelled from the spec: `random.seed(s)` discards the previous global
state and installs the state determined by the seed. -/
def randomSeed (seed : ℤ) (_g : RandomState) : RandomState :=
  ⟨seedStream seed, 0⟩

/-- Modelled from the spec: `random.gauss(mu, sigma)` — one normal draw from
the global generator, represented as `mu + sigma * d` for the next raw draw
`d`. -/
def gaussDraw (mu sigma : ℝ) (g : RandomState) : ℝ × RandomState :=
  let (d, g1) := g.next
  (mu + sigma * d, g1)

/-- Modelled from the spec: `random.lognormvariate(mu, sigma)` — one
log-normal draw, `exp (mu + sigma * d)` for the next raw draw `d`. -/
def lognormDraw (mu sigma : ℝ) (g : RandomState) : ℝ × RandomState :=
  let (d, g1) := g.next
  (Real.exp (mu + sigma * d), g1)

/-! ## Variability Engine (physiology/variability.py) -/

/-- Distribution selector of `VariabilityEngine.add_variability`
(the Python code compares the `distribution` argument with the string
`"lognormal"`; anything else selects the normal branch). -/
inductive Distribution where
  | normal
  | lognormal
  deriving DecidableEq, Repr

/-- `VariabilityConfig`: per-analyte coefficients of variation and the
measurement-error switch. -/
structure VariabilityConfig where
  enabled : Bool
  seed : Option ℤ
  ph_cv : ℝ
  pco2_cv : ℝ
  po2_cv : ℝ
  hco3_cv : ℝ
  sodium_cv : ℝ
  potassium_cv : ℝ
  chloride_cv : ℝ
  glucose_cv : ℝ
  lactate_cv : ℝ
  measurement_error : Bool
  measurement_error_magnitude : ℝ

/-- `create_variability_engine(enabled, seed, low_noise)`: builds the config
with the dataclass defaults, halving every CV when `low_noise` is set. -/
def createVariabilityConfig (enabled : Bool) (seed : Option ℤ) (low_noise : Bool) :
    VariabilityConfig :=
  if low_noise then
    ⟨enabled, seed, 0.005 * 0.5, 0.03 * 0.5, 0.05 * 0.5, 0.03 * 0.5,
      0.015 * 0.5, 0.05 * 0.5, 0.02 * 0.5, 0.08 * 0.5, 0.10 * 0.5, true, 0.5⟩
  else
    ⟨enabled, seed, 0.005, 0.03, 0.05, 0.03, 0.015, 0.05, 0.02, 0.08, 0.10,
      true, 0.5⟩

/-- `VariabilityEngine.__init__`: if a seed is configured, the constructor
reseeds the global generator; otherwise the global state is left untouched. -/
def initVariability (cfg : VariabilityConfig) (g : RandomState) : RandomState :=
  match cfg.seed with
  | some s => randomSeed s g
  | none => g

/-- `VariabilityEngine.add_variability(value, cv, min_value, max_value,
distribution)`: returns the perturbed value together with the advanced
generator state.  Disabled engine or non-positive CV returns the value
unchanged without consuming draws. -/
def addVariability (cfg : VariabilityConfig) (value cv : ℝ)
    (min_value max_value : Option ℝ) (dist : Distribution) (g : RandomState) :
    ℝ × RandomState :=
  if !cfg.enabled then (value, g)
  else if cv ≤ 0 then (value, g)
  else
    let sd := |value| * cv
    let (varied, g1) :=
      match dist with
      | Distribution.lognormal => lognormDraw (Real.log value - cv ^ 2 / 2) cv g
      | Distribution.normal => gaussDraw value sd g
    let (varied2, g2) :=
      if cfg.measurement_error then
        let measurement_sd := sd * cfg.measurement_error_magnitude * 0.5
        let (e, g2) := gaussDraw 0 measurement_sd g1
        (varied + e, g2)
      else (varied, g1)
    let v3 := match min_value with
      | some m => max varied2 m
      | none => varied2
    let v4 := match max_value with
      | some m => min v3 m
      | none => v3
    (v4, g2)

/-- `vary_ph`. -/
def varyPh (cfg : VariabilityConfig) (ph : ℝ) (g : RandomState) : ℝ × RandomState :=
  addVariability cfg ph cfg.ph_cv (some 6.80) (some 7.80) Distribution.normal g

/-- `vary_pco2`. -/
def varyPco2 (cfg : VariabilityConfig) (pco2 : ℝ) (g : RandomState) : ℝ × RandomState :=
  addVariability cfg pco2 cfg.pco2_cv (some 10.0) (some 150.0) Distribution.normal g

/-- `vary_po2` (log-normal). -/
def varyPo2 (cfg : VariabilityConfig) (po2 : ℝ) (g : RandomState) : ℝ × RandomState :=
  addVariability cfg po2 cfg.po2_cv (some 20.0) (some 600.0) Distribution.lognormal g

/-- `vary_hco3`. -/
def varyHco3 (cfg : VariabilityConfig) (hco3 : ℝ) (g : RandomState) : ℝ × RandomState :=
  addVariability cfg hco3 cfg.hco3_cv (some 4.0) (some 50.0) Distribution.normal g

/-- `vary_sodium`. -/
def varySodium (cfg : VariabilityConfig) (sodium : ℝ) (g : RandomState) : ℝ × RandomState :=
  addVariability cfg sodium cfg.sodium_cv (some 110.0) (some 180.0) Distribution.normal g

/-- `vary_potassium`. -/
def varyPotassium (cfg : VariabilityConfig) (potassium : ℝ) (g : RandomState) :
    ℝ × RandomState :=
  addVariability cfg potassium cfg.potassium_cv (some 2.0) (some 9.0) Distribution.normal g

/-- `vary_chloride`. -/
def varyChloride (cfg : VariabilityConfig) (chloride : ℝ) (g : RandomState) :
    ℝ × RandomState :=
  addVariability cfg chloride cfg.chloride_cv (some 80.0) (some 130.0) Distribution.normal g

/-- `vary_glucose` (log-normal). -/
def varyGlucose (cfg : VariabilityConfig) (glucose : ℝ) (g : RandomState) :
    ℝ × RandomState :=
  addVariability cfg glucose cfg.glucose_cv (some 20.0) (some 1200.0) Distribution.lognormal g

/-- `vary_lactate` (log-normal). -/
def varyLactate (cfg : VariabilityConfig) (lactate : ℝ) (g : RandomState) :
    ℝ × RandomState :=
  addVariability cfg lactate cfg.lactate_cv (some 0.3) (some 25.0) Distribution.lognormal g

/-- `vary_hemoglobin` (fixed CV 0.02). -/
def varyHemoglobin (cfg : VariabilityConfig) (hemoglobin : ℝ) (g : RandomState) :
    ℝ × RandomState :=
  addVariability cfg hemoglobin 0.02 (some 3.0) (some 22.0) Distribution.normal g

/-- `vary_sao2` (fixed CV 0.01). -/
def varySao2 (cfg : VariabilityConfig) (sao2 : ℝ) (g : RandomState) : ℝ × RandomState :=
  addVariability cfg sao2 0.01 (some 0.0) (some 100.0) Distribution.normal g

/-! ## Acid-Base Engine (physiology/acid_base.py) -/

/-- The Henderson-Hasselbalch value
`pH = 6.1 + log10(HCO3 / (0.03 * pCO2))` (the `ratio`/`return` lines of
`AcidBaseEngine.calculate_ph`). -/
def calculatePhVal (hco3 pco2 : ℝ) : ℝ :=
  6.1 + Real.logb 10 (hco3 / (0.03 * pco2))

/-- `AcidBaseEngine.calculate_ph`: raises `ValueError` when `pco2 ≤ 0` or
`hco3 ≤ 0`, otherwise the Henderson-Hasselbalch pH. -/
def calculatePh (hco3 pco2 : ℝ) : Except String ℝ :=
  if pco2 ≤ 0 ∨ hco3 ≤ 0 then Except.error "pCO2 and HCO3 must be positive"
  else Except.ok (calculatePhVal hco3 pco2)

/-- `AcidBaseEngine.calculate_hco3`: `0.03 * pCO2 * 10 ^ (pH - 6.1)`.
The Python method performs no domain check and cannot raise. -/
def calculateHco3 (ph pco2 : ℝ) : Except String ℝ :=
  Except.ok (0.03 * pco2 * (10 : ℝ) ^ (ph - 6.1))

/-- `AcidBaseEngine.calculate_pco2`: `HCO3 / (0.03 * 10 ^ (pH - 6.1))`.
The Python method performs no domain check and cannot raise. -/
def calculatePco2 (ph hco3 : ℝ) : Except String ℝ :=
  Except.ok (hco3 / (0.03 * (10 : ℝ) ^ (ph - 6.1)))

/-- `AcidBaseEngine.calculate_base_excess` (default hemoglobin 15):
`BE = (HCO3 - 24.4) + (2.3 * Hb + 7.7) * (pH - 7.4)`. -/
def calculateBaseExcess (ph hco3 : ℝ) (hemoglobin : ℝ := 15.0) : ℝ :=
  (hco3 - 24.4) + (2.3 * hemoglobin + 7.7) * (ph - 7.4)

/-- Winter's formula window: `1.5 * HCO3 + 8 ± 2`. -/
def expectedPco2MetabolicAcidosis (hco3 : ℝ) : ℝ × ℝ :=
  (1.5 * hco3 + 8 - 2, 1.5 * hco3 + 8 + 2)

/-- Metabolic-alkalosis window: `0.7 * HCO3 + 21 ± 2`. -/
def expectedPco2MetabolicAlkalosis (hco3 : ℝ) : ℝ × ℝ :=
  (0.7 * hco3 + 21 - 2, 0.7 * hco3 + 21 + 2)

/-- Acute respiratory acidosis window: HCO3 rises 1 mEq/L per 10 mmHg pCO2. -/
def expectedHco3RespiratoryAcidosisAcute (pco2 : ℝ) : ℝ × ℝ :=
  (24 + (pco2 - 40) / 10 - 2, 24 + (pco2 - 40) / 10 + 2)

/-- Chronic respiratory acidosis window: 3.5 mEq/L per 10 mmHg. -/
def expectedHco3RespiratoryAcidosisChronic (pco2 : ℝ) : ℝ × ℝ :=
  (24 + 3.5 * ((pco2 - 40) / 10) - 2, 24 + 3.5 * ((pco2 - 40) / 10) + 2)

/-- Acute respiratory alkalosis window: 2 mEq/L per 10 mmHg fall, floored at 8. -/
def expectedHco3RespiratoryAlkalosisAcute (pco2 : ℝ) : ℝ × ℝ :=
  (max (24 - 2 * ((40 - pco2) / 10) - 2) 8, 24 - 2 * ((40 - pco2) / 10) + 2)

/-- Chronic respiratory alkalosis window: 5 mEq/L per 10 mmHg fall, floored at 12. -/
def expectedHco3RespiratoryAlkalosisChronic (pco2 : ℝ) : ℝ × ℝ :=
  (max (24 - 5 * ((40 - pco2) / 10) - 2) 12, 24 - 5 * ((40 - pco2) / 10) + 2)

/-- `AcidBaseState` (without free-text fields). -/
structure AcidBaseState where
  ph : ℝ
  pco2 : ℝ
  hco3 : ℝ
  base_excess : ℝ
  primary_disorder : Disorder
  compensation_status : Compensation
  secondary_disorder : Option Disorder

/-- `AcidBaseEngine.assess_compensation`: compensation status and any
secondary disorder implied by the expected-compensation windows. -/
def assessCompensation (primary : Disorder) (pco2 hco3 : ℝ) (duration : Duration) :
    Compensation × Option Disorder :=
  match primary with
  | Disorder.NORMAL => (Compensation.NONE, none)
  | Disorder.METABOLIC_ACIDOSIS =>
    let expected := expectedPco2MetabolicAcidosis hco3
    if pco2 < expected.1 then (Compensation.EXCESSIVE, some Disorder.RESPIRATORY_ALKALOSIS)
    else if pco2 > expected.2 then (Compensation.PARTIAL, some Disorder.RESPIRATORY_ACIDOSIS)
    else (Compensation.APPROPRIATE, none)
  | Disorder.METABOLIC_ALKALOSIS =>
    let expected := expectedPco2MetabolicAlkalosis hco3
    if pco2 > expected.2 then (Compensation.EXCESSIVE, some Disorder.RESPIRATORY_ACIDOSIS)
    else if pco2 < expected.1 then (Compensation.PARTIAL, some Disorder.RESPIRATORY_ALKALOSIS)
    else (Compensation.APPROPRIATE, none)
  | Disorder.RESPIRATORY_ACIDOSIS =>
    let expected :=
      if duration = Duration.ACUTE then expectedHco3RespiratoryAcidosisAcute pco2
      else expectedHco3RespiratoryAcidosisChronic pco2
    if hco3 > expected.2 then (Compensation.EXCESSIVE, some Disorder.METABOLIC_ALKALOSIS)
    else if hco3 < expected.1 then (Compensation.PARTIAL, some Disorder.METABOLIC_ACIDOSIS)
    else (Compensation.APPROPRIATE, none)
  | Disorder.RESPIRATORY_ALKALOSIS =>
    let expected :=
      if duration = Duration.ACUTE then expectedHco3RespiratoryAlkalosisAcute pco2
      else expectedHco3RespiratoryAlkalosisChronic pco2
    if hco3 < expected.1 then (Compensation.EXCESSIVE, some Disorder.METABOLIC_ACIDOSIS)
    else if hco3 > expected.2 then (Compensation.PARTIAL, some Disorder.METABOLIC_ALKALOSIS)
    else (Compensation.APPROPRIATE, none)

/-- `AcidBaseEngine.generate_for_disorder`: concrete pH/pCO2/HCO3 for a
(disorder, severity, compensation, duration) tuple.  The Python body also
computes a `target_ph` local that is never used afterwards; it is omitted. -/
def generateForDisorder (disorder : Disorder) (severity : Severity)
    (compensation : Compensation) (duration : Duration)
    (baseline_pco2 : ℝ := 40.0) (baseline_hco3 : ℝ := 24.0) : AcidBaseState :=
  match disorder with
  | Disorder.NORMAL =>
    ⟨7.40, baseline_pco2, baseline_hco3, 0.0, Disorder.NORMAL, Compensation.NONE, none⟩
  | Disorder.METABOLIC_ACIDOSIS =>
    let hco3 : ℝ :=
      match severity with
      | Severity.MILD => 18.0
      | Severity.MODERATE => 14.0
      | Severity.SEVERE => 8.0
    let expected := expectedPco2MetabolicAcidosis hco3
    let pco2 : ℝ :=
      match compensation with
      | Compensation.NONE => baseline_pco2
      | Compensation.PARTIAL => (baseline_pco2 + expected.2) / 2
      | Compensation.APPROPRIATE => (expected.1 + expected.2) / 2
      | Compensation.EXCESSIVE => expected.1 - 4
    let ph := calculatePhVal hco3 pco2
    let ac := assessCompensation disorder pco2 hco3 duration
    ⟨ph, pco2, hco3, calculateBaseExcess ph hco3, disorder, ac.1, ac.2⟩
  | Disorder.METABOLIC_ALKALOSIS =>
    let hco3 : ℝ :=
      match severity with
      | Severity.MILD => 30.0
      | Severity.MODERATE => 36.0
      | Severity.SEVERE => 42.0
    let expected := expectedPco2MetabolicAlkalosis hco3
    let pco2 : ℝ :=
      match compensation with
      | Compensation.NONE => baseline_pco2
      | Compensation.PARTIAL => (baseline_pco2 + expected.1) / 2
      | Compensation.APPROPRIATE => (expected.1 + expected.2) / 2
      | Compensation.EXCESSIVE => expected.2 + 4
    let ph := calculatePhVal hco3 pco2
    let ac := assessCompensation disorder pco2 hco3 duration
    ⟨ph, pco2, hco3, calculateBaseExcess ph hco3, disorder, ac.1, ac.2⟩
  | Disorder.RESPIRATORY_ACIDOSIS =>
    let pco2 : ℝ :=
      match severity with
      | Severity.MILD => 52.0
      | Severity.MODERATE => 65.0
      | Severity.SEVERE => 85.0
    let expected :=
      if duration = Duration.CHRONIC then expectedHco3RespiratoryAcidosisChronic pco2
      else expectedHco3RespiratoryAcidosisAcute pco2
    let hco3 : ℝ :=
      match compensation with
      | Compensation.NONE => baseline_hco3
      | Compensation.PARTIAL => (baseline_hco3 + expected.1) / 2
      | Compensation.APPROPRIATE => (expected.1 + expected.2) / 2
      | Compensation.EXCESSIVE => expected.2 + 4
    let ph := calculatePhVal hco3 pco2
    let ac := assessCompensation disorder pco2 hco3 duration
    ⟨ph, pco2, hco3, calculateBaseExcess ph hco3, disorder, ac.1, ac.2⟩
  | Disorder.RESPIRATORY_ALKALOSIS =>
    let pco2 : ℝ :=
      match severity with
      | Severity.MILD => 30.0
      | Severity.MODERATE => 24.0
      | Severity.SEVERE => 18.0
    let expected :=
      if duration = Duration.CHRONIC then expectedHco3RespiratoryAlkalosisChronic pco2
      else expectedHco3RespiratoryAlkalosisAcute pco2
    let hco3 : ℝ :=
      match compensation with
      | Compensation.NONE => baseline_hco3
      | Compensation.PARTIAL => (baseline_hco3 + expected.2) / 2
      | Compensation.APPROPRIATE => (expected.1 + expected.2) / 2
      | Compensation.EXCESSIVE => expected.1 - 2
    let ph := calculatePhVal hco3 pco2
    let ac := assessCompensation disorder pco2 hco3 duration
    ⟨ph, pco2, hco3, calculateBaseExcess ph hco3, disorder, ac.1, ac.2⟩

/-- `AcidBaseEngine.apply_secondary_disorder`: perturbs an existing state by
a severity-scaled magnitude and recomputes pH and base excess. -/
def applySecondaryDisorder (state : AcidBaseState) (secondary : Disorder)
    (secondary_severity : Severity) : AcidBaseState :=
  let effect_magnitude : ℝ :=
    match secondary_severity with
    | Severity.MILD => 0.3
    | Severity.MODERATE => 0.6
    | Severity.SEVERE => 1.0
  let new_pco2 : ℝ :=
    match secondary with
    | Disorder.RESPIRATORY_ACIDOSIS => state.pco2 + 20 * effect_magnitude
    | Disorder.RESPIRATORY_ALKALOSIS => max (state.pco2 - 15 * effect_magnitude) 15
    | _ => state.pco2
  let new_hco3 : ℝ :=
    match secondary with
    | Disorder.METABOLIC_ACIDOSIS => max (state.hco3 - 10 * effect_magnitude) 6
    | Disorder.METABOLIC_ALKALOSIS => state.hco3 + 10 * effect_magnitude
    | _ => state.hco3
  let new_ph := calculatePhVal new_hco3 new_pco2
  ⟨new_ph, new_pco2, new_hco3, calculateBaseExcess new_ph new_hco3,
    state.primary_disorder, Compensation.NONE, some secondary⟩

/-! ## Oxygenation Engine (physiology/oxygenation.py) -/

/-- `OxygenationEngine.calculate_alveolar_po2`:
`PAO2 = FiO2 * (Patm - 47) - PaCO2 / RQ` with RQ = 0.8. -/
def calculateAlveolarPo2 (fio2 paco2 : ℝ) (atmospheric_pressure : ℝ := 760)
    (rq : ℝ := 0.8) : ℝ :=
  fio2 * (atmospheric_pressure - 47) - paco2 / rq

/-- `OxygenationEngine.calculate_aa_gradient`: alveolar minus arterial PO2. -/
def calculateAaGradientVal (pao2_arterial paco2 fio2 : ℝ)
    (atmospheric_pressure : ℝ := 760) : ℝ :=
  calculateAlveolarPo2 fio2 paco2 atmospheric_pressure - pao2_arterial

/-- `OxygenationEngine.expected_aa_gradient`: `age / 4 + 4`. -/
def expectedAaGradient (age : ℕ) : ℝ :=
  (age : ℝ) / 4 + 4

/-- The value computed by `OxygenationEngine.calculate_pf_ratio` when
`fio2 > 0` (the Python method raises `ValueError` for `fio2 ≤ 0`; every
claim-relevant call site passes a positive FiO2). -/
def pfRatioVal (pao2 fio2 : ℝ) : ℝ :=
  pao2 / fio2

/-- `OxygenationEngine.calculate_p50`: P50 shifted by pH, temperature, CO2
and 2,3-DPG, clamped to [15, 40]. -/
def calculateP50 (ph : ℝ := 7.40) (temperature : ℝ := 37.0) (pco2 : ℝ := 40.0)
    (dpg_2_3 : ℝ := 1.0) : ℝ :=
  let base_p50 : ℝ := 27.0
  let ph_effect := (7.40 - ph) * 5.0
  let temp_effect := (temperature - 37.0) * 1.5
  let co2_effect := (pco2 - 40.0) * 0.05
  let dpg_effect := (dpg_2_3 - 1.0) * 5.0
  max (min (base_p50 + ph_effect + temp_effect + co2_effect + dpg_effect) 40) 15

/-- `OxygenationEngine.calculate_sao2`: Hill equation with exponent 2.7
around the shifted P50, returning 0 for non-positive PaO2 and clamping the
result to [0, 100]. -/
def calculateSao2 (pao2 : ℝ) (ph : ℝ := 7.40) (temperature : ℝ := 37.0)
    (pco2 : ℝ := 40.0) (dpg_2_3 : ℝ := 1.0) : ℝ :=
  let p50 := calculateP50 ph temperature pco2 dpg_2_3
  if pao2 ≤ 0 then 0.0
  else
    min (max (100 * pao2 ^ (2.7 : ℝ) / (p50 ^ (2.7 : ℝ) + pao2 ^ (2.7 : ℝ))) 0) 100

/-- `OxygenationState`. -/
structure OxygenationState where
  pao2 : ℝ
  sao2 : ℝ
  fio2 : ℝ
  pf_ratio_val : ℝ
  aa_gradient : ℝ
  expected_aa_gradient : ℝ
  pao2_normal : Bool
  aa_gradient_elevated : Bool

/-- `OxygenationEngine.generate_oxygenation`: picks an A-a gradient, derives
arterial PO2 from the alveolar gas equation, blends toward mixed-venous PO2
by the shunt fraction, floors at 30 mmHg and derives SaO2 and P/F ratio. -/
def generateOxygenation (fio2 paco2 : ℝ) (age : ℕ)
    (aa_gradient_elevated : Bool) (target_aa_gradient : Option ℝ)
    (shunt_fraction ph temperature : ℝ)
    (atmospheric_pressure : ℝ := 760) : OxygenationState :=
  let expected_aa := expectedAaGradient age
  let aa_gradient :=
    match target_aa_gradient with
    | some t => t
    | none => if aa_gradient_elevated then expected_aa + 20 else expected_aa
  let pao2_alveolar := calculateAlveolarPo2 fio2 paco2 atmospheric_pressure
  let pao2_0 := pao2_alveolar - aa_gradient
  let pao2_1 :=
    if shunt_fraction > 0 then
      pao2_0 * (1 - shunt_fraction) + 40.0 * shunt_fraction
    else pao2_0
  let pao2 := max pao2_1 30
  let sao2 := calculateSao2 pao2 ph temperature paco2
  let pf := pfRatioVal pao2 fio2
  let pao2_normal := if pao2 ≥ 80 * (fio2 / 0.21) then true else false
  ⟨pao2, sao2, fio2, pf, aa_gradient, expected_aa, pao2_normal,
    if aa_gradient > expected_aa + 5 then true else false⟩

/-! ## Electrolyte Engine (physiology/electrolytes.py) -/

/-- `ElectrolyteEngine.calculate_anion_gap` (without potassium):
`AG = Na - (Cl + HCO3)`. -/
def calculateAnionGap (sodium chloride hco3 : ℝ) : ℝ :=
  sodium - (chloride + hco3)

/-- `ElectrolyteEngine.correct_anion_gap_for_albumin`:
`AG + 2.5 * (4 - albumin)`. -/
def correctAnionGapForAlbumin (anion_gap albumin : ℝ) (normal_albumin : ℝ := 4.0) : ℝ :=
  anion_gap + 2.5 * (normal_albumin - albumin)

/-- `ElectrolyteEngine.calculate_delta_gap`: `AG - 12`. -/
def calculateDeltaGap (anion_gap : ℝ) (normal_ag : ℝ := 12.0) : ℝ :=
  anion_gap - normal_ag

/-- `ElectrolyteEngine.calculate_delta_ratio`.  Python returns the IEEE
`inf` float when HCO3 has not dropped but the gap is elevated; that value is
modelled as `⊤ : EReal`. -/
def calculateDeltaRatioVal (anion_gap hco3 : ℝ) (normal_ag : ℝ := 12.0)
    (normal_hco3 : ℝ := 24.0) : EReal :=
  let delta_ag := anion_gap - normal_ag
  let delta_hco3 := normal_hco3 - hco3
  if delta_hco3 ≤ 0 then
    if delta_ag > 4 then (⊤ : EReal) else ((1 : ℝ) : EReal)
  else ((delta_ag / delta_hco3 : ℝ) : EReal)

/-- `ElectrolyteEngine.analyze_delta_ratio`:
`(ratio < 1, ratio > 2)` flags. -/
def analyzeDeltaRatioVal (delta_ratio_value : EReal) : Bool × Bool :=
  (if delta_ratio_value < (1 : ℝ) then true else false,
   if delta_ratio_value > (2 : ℝ) then true else false)

/-- `ElectrolyteEngine.calculate_osmolality`:
`2 * Na + glucose / 18 + BUN / 2.8`. -/
def calculateOsmolality (sodium glucose : ℝ) (bun : ℝ := 14.0) : ℝ :=
  2 * sodium + glucose / 18 + bun / 2.8

/-- Python truthiness for an optional float argument used as
`x if x else default`: both `None` and `0.0` select the default. -/
def pyOr (x : Option ℝ) (default : ℝ) : ℝ :=
  match x with
  | none => default
  | some v => if v = 0 then default else v

/-- `ElectrolyteState` (analysis fields included). -/
structure ElectrolyteState where
  sodium : ℝ
  potassium : ℝ
  chloride : ℝ
  glucose : ℝ
  lactate : ℝ
  albumin : ℝ
  anion_gap : ℝ
  corrected_anion_gap : ℝ
  delta_gap : ℝ
  delta_ratio_val : EReal
  anion_gap_category : AnionGapCategory
  has_hidden_non_gap_acidosis : Bool
  has_hidden_metabolic_alkalosis : Bool
  calculated_osmolality : ℝ

/-- `ElectrolyteEngine.generate_electrolytes`.  Note the Python truthiness of
`sodium_target`/`potassium_target`/`glucose_target`/`lactate_target`
(`x if x else default`) versus the explicit `is not None` tests for
`target_anion_gap` and `chloride_target`. -/
def generateElectrolytes (hco3 : ℝ) (ph : ℝ := 7.40)
    (elevated_anion_gap : Bool := false) (target_anion_gap : Option ℝ := none)
    (anion_gap_cause : Option String := none)
    (sodium_target : Option ℝ := none) (potassium_target : Option ℝ := none)
    (chloride_target : Option ℝ := none) (glucose_target : Option ℝ := none)
    (lactate_target : Option ℝ := none) (albumin : ℝ := 4.0) : ElectrolyteState :=
  let sodium := pyOr sodium_target 140.0
  let potassium := pyOr potassium_target 4.0
  let glucose := pyOr glucose_target 95.0
  let lactate := pyOr lactate_target 1.0
  let anion_gap_0 : ℝ :=
    match target_anion_gap with
    | some t => t
    | none =>
      if elevated_anion_gap then
        match anion_gap_cause with
        | some cause =>
          if cause = "dka" then 24.0
          else if cause = "lactic" then 20.0
          else if cause = "renal" then 18.0
          else if cause = "toxic" then 28.0
          else 22.0
        | none => 22.0
      else 10.0
  let (chloride, anion_gap) :=
    match chloride_target with
    | some c => (c, sodium - (c + hco3))
    | none => (max (min (sodium - anion_gap_0 - hco3) 120) 85, anion_gap_0)
  let corrected_ag := correctAnionGapForAlbumin anion_gap albumin
  let delta_gap := calculateDeltaGap corrected_ag
  let delta_ratio_value := calculateDeltaRatioVal corrected_ag hco3
  let flags := analyzeDeltaRatioVal delta_ratio_value
  let ag_category :=
    if corrected_ag > 14 then AnionGapCategory.ELEVATED
    else if corrected_ag < 6 then AnionGapCategory.LOW
    else AnionGapCategory.NORMAL
  let calc_osm := calculateOsmolality sodium glucose
  ⟨sodium, potassium, chloride, glucose, lactate, albumin, anion_gap,
    corrected_ag, delta_gap, delta_ratio_value, ag_category, flags.1, flags.2, calc_osm⟩

/-! ## Patient factors (models/patient_state.py) -/

/-- `PatientFactors`. -/
structure PatientFactors where
  age : ℕ
  chronic_conditions : List ChronicCondition
  baseline_hemoglobin : Option ℝ
  baseline_albumin : Option ℝ
  baseline_creatinine : Option ℝ
  altitude_meters : ℤ
  temperature_celsius : ℝ
  is_pregnant : Bool
  is_mechanically_ventilated : Bool

/-- The dataclass defaults of `PatientFactors()`. -/
def defaultPatient : PatientFactors :=
  ⟨40, [], none, none, none, 0, 37.0, false, false⟩

/-- `PatientFactors.get_baseline_pco2` (sequential overrides: COPD, then
obesity hypoventilation, then pregnancy). -/
def PatientFactors.baselinePco2 (p : PatientFactors) : ℝ :=
  let b : ℝ := 40.0
  let b := if ChronicCondition.COPD ∈ p.chronic_conditions then 45.0 else b
  let b := if ChronicCondition.OBESITY_HYPOVENTILATION ∈ p.chronic_conditions then 48.0 else b
  if p.is_pregnant then 32.0 else b

/-- `PatientFactors.get_baseline_hco3` (CKD, then COPD, then pregnancy). -/
def PatientFactors.baselineHco3 (p : PatientFactors) : ℝ :=
  let b : ℝ := 24.0
  let b := if ChronicCondition.CHRONIC_KIDNEY_DISEASE ∈ p.chronic_conditions then 20.0 else b
  let b := if ChronicCondition.COPD ∈ p.chronic_conditions then 28.0 else b
  if p.is_pregnant then 20.0 else b

/-- `PatientFactors.get_baseline_hemoglobin`. -/
def PatientFactors.baselineHemoglobin (p : PatientFactors) : ℝ :=
  match p.baseline_hemoglobin with
  | some v => v
  | none =>
    let b : ℝ :=
      if ChronicCondition.ANEMIA_CHRONIC ∈ p.chronic_conditions then 9.0
      else if ChronicCondition.CHRONIC_KIDNEY_DISEASE ∈ p.chronic_conditions then 10.5
      else 14.0
    if p.is_pregnant then 11.5 else b

/-- `PatientFactors.get_baseline_albumin`. -/
def PatientFactors.baselineAlbumin (p : PatientFactors) : ℝ :=
  match p.baseline_albumin with
  | some v => v
  | none =>
    if ChronicCondition.CIRRHOSIS ∈ p.chronic_conditions then 2.5
    else if ChronicCondition.CHRONIC_KIDNEY_DISEASE ∈ p.chronic_conditions then 3.2
    else 4.0

/-! ## Condition catalog (scenarios/clinical_conditions.py)

`ConditionEffect` keeps every numeric/flag field of the Python dataclass;
the free-text `description` and `teaching_points` fields are omitted (they
never feed a numeric computation). -/

/-- `ConditionEffect` with the dataclass defaults. -/
structure ConditionEffect where
  primary_disorder : Disorder
  ph_range : ℝ × ℝ × ℝ
  pco2_effect : ℝ × ℝ
  hco3_effect : ℝ × ℝ
  po2_effect : ℝ × ℝ
  aa_gradient_elevated : Bool := false
  aa_gradient_range : ℝ × ℝ := (10.0, 15.0)
  shunt_fraction_range : ℝ × ℝ := (0.0, 0.0)
  anion_gap_elevated : Bool := false
  typical_anion_gap : ℝ × ℝ := (8, 12)
  sodium_effect : ℝ × ℝ := (-2, 2)
  potassium_effect : ℝ × ℝ := (-0.3, 0.3)
  chloride_effect : ℝ × ℝ := (-2, 2)
  glucose_effect : ℝ × ℝ := (70, 110)
  lactate_effect : ℝ × ℝ := (0.5, 2.0)
  expected_compensation : Compensation := Compensation.APPROPRIATE
  compensation_blocked : Bool := false
  affects_respiratory_drive : Bool := false
  respiratory_drive_multiplier : ℝ := 1.0

/-- `CONDITION_EFFECTS` / `get_condition_effect`: the static catalog.  The
Python dict covers every member of the enumeration, so the lookup is total
(the `ValueError` branch of `get_condition_effect` is unreachable). -/
def getConditionEffect : ClinicalCondition → ConditionEffect
  | ClinicalCondition.COPD_EXACERBATION =>
    { primary_disorder := Disorder.RESPIRATORY_ACIDOSIS,
      ph_range := (7.25, 7.35, 7.42), pco2_effect := (5, 20), hco3_effect := (4, 12),
      po2_effect := (45, 65), aa_gradient_elevated := true,
      aa_gradient_range := (15.0, 32.0), shunt_fraction_range := (0.02, 0.08),
      anion_gap_elevated := false, typical_anion_gap := (8, 12),
      potassium_effect := (-0.3, 0.3), lactate_effect := (0.8, 2.5),
      expected_compensation := Compensation.APPROPRIATE }
  | ClinicalCondition.ASTHMA_ATTACK =>
    { primary_disorder := Disorder.RESPIRATORY_ALKALOSIS,
      ph_range := (7.35, 7.45, 7.55), pco2_effect := (-15, -5), hco3_effect := (-4, 0),
      po2_effect := (60, 85), aa_gradient_elevated := true,
      aa_gradient_range := (15.0, 35.0), shunt_fraction_range := (0.0, 0.05),
      anion_gap_elevated := false, lactate_effect := (1.0, 3.0),
      affects_respiratory_drive := true, respiratory_drive_multiplier := 1.5 }
  | ClinicalCondition.PULMONARY_EMBOLISM =>
    { primary_disorder := Disorder.RESPIRATORY_ALKALOSIS,
      ph_range := (7.42, 7.48, 7.55), pco2_effect := (-12, -5), hco3_effect := (-3, 0),
      po2_effect := (55, 80), aa_gradient_elevated := true,
      aa_gradient_range := (20.0, 45.0), shunt_fraction_range := (0.05, 0.20),
      anion_gap_elevated := false, lactate_effect := (1.0, 4.0) }
  | ClinicalCondition.ARDS =>
    { primary_disorder := Disorder.RESPIRATORY_ACIDOSIS,
      ph_range := (7.20, 7.32, 7.40), pco2_effect := (5, 25), hco3_effect := (-2, 4),
      po2_effect := (40, 70), aa_gradient_elevated := true,
      aa_gradient_range := (30.0, 55.0), shunt_fraction_range := (0.28, 0.45),
      anion_gap_elevated := false, lactate_effect := (2.0, 8.0) }
  | ClinicalCondition.PNEUMONIA =>
    { primary_disorder := Disorder.RESPIRATORY_ALKALOSIS,
      ph_range := (7.38, 7.45, 7.52), pco2_effect := (-10, 0), hco3_effect := (-2, 0),
      po2_effect := (55, 80), aa_gradient_elevated := true,
      aa_gradient_range := (20.0, 40.0), shunt_fraction_range := (0.03, 0.12),
      anion_gap_elevated := false, lactate_effect := (1.0, 4.0) }
  | ClinicalCondition.OPIOID_OVERDOSE =>
    { primary_disorder := Disorder.RESPIRATORY_ACIDOSIS,
      ph_range := (7.15, 7.25, 7.35), pco2_effect := (15, 40), hco3_effect := (0, 3),
      po2_effect := (40, 65), aa_gradient_elevated := false,
      aa_gradient_range := (8.0, 15.0), shunt_fraction_range := (0.0, 0.0),
      anion_gap_elevated := false, lactate_effect := (1.5, 5.0),
      compensation_blocked := true, affects_respiratory_drive := true,
      respiratory_drive_multiplier := 0.3 }
  | ClinicalCondition.HYPERVENTILATION_ANXIETY =>
    { primary_disorder := Disorder.RESPIRATORY_ALKALOSIS,
      ph_range := (7.50, 7.55, 7.65), pco2_effect := (-20, -10), hco3_effect := (-4, -1),
      po2_effect := (100, 115), aa_gradient_elevated := false,
      aa_gradient_range := (5.0, 12.0), shunt_fraction_range := (0.0, 0.0),
      anion_gap_elevated := false, lactate_effect := (0.8, 2.0) }
  | ClinicalCondition.HYPERVENTILATION_PAIN =>
    { primary_disorder := Disorder.RESPIRATORY_ALKALOSIS,
      ph_range := (7.45, 7.50, 7.55), pco2_effect := (-12, -5), hco3_effect := (-2, 0),
      po2_effect := (90, 105), aa_gradient_elevated := false,
      aa_gradient_range := (5.0, 12.0), shunt_fraction_range := (0.0, 0.0),
      anion_gap_elevated := false, lactate_effect := (1.0, 2.5) }
  | ClinicalCondition.NEUROMUSCULAR_WEAKNESS =>
    { primary_disorder := Disorder.RESPIRATORY_ACIDOSIS,
      ph_range := (7.28, 7.35, 7.40), pco2_effect := (8, 25), hco3_effect := (2, 8),
      po2_effect := (60, 80), aa_gradient_elevated := false,
      aa_gradient_range := (8.0, 15.0), shunt_fraction_range := (0.0, 0.0),
      anion_gap_elevated := false }
  | ClinicalCondition.DKA =>
    { primary_disorder := Disorder.METABOLIC_ACIDOSIS,
      ph_range := (7.00, 7.20, 7.30), pco2_effect := (-20, -8), hco3_effect := (-18, -10),
      po2_effect := (90, 110), aa_gradient_elevated := false,
      aa_gradient_range := (5.0, 12.0), shunt_fraction_range := (0.0, 0.0),
      anion_gap_elevated := true, typical_anion_gap := (20, 35),
      sodium_effect := (-8, 0), potassium_effect := (-0.5, 2.0),
      glucose_effect := (250, 800), lactate_effect := (2.0, 5.0),
      affects_respiratory_drive := true, respiratory_drive_multiplier := 1.8 }
  | ClinicalCondition.HHS =>
    { primary_disorder := Disorder.METABOLIC_ACIDOSIS,
      ph_range := (7.25, 7.35, 7.42), pco2_effect := (-8, 0), hco3_effect := (-8, -2),
      po2_effect := (85, 100), aa_gradient_elevated := false,
      aa_gradient_range := (5.0, 12.0), shunt_fraction_range := (0.0, 0.0),
      anion_gap_elevated := true, typical_anion_gap := (12, 20),
      sodium_effect := (0, 15), glucose_effect := (600, 1200),
      lactate_effect := (1.5, 4.0) }
  | ClinicalCondition.LACTIC_ACIDOSIS_SEPSIS =>
    { primary_disorder := Disorder.METABOLIC_ACIDOSIS,
      ph_range := (7.10, 7.25, 7.35), pco2_effect := (-15, -5), hco3_effect := (-14, -6),
      po2_effect := (60, 90), aa_gradient_elevated := true,
      aa_gradient_range := (20.0, 45.0), shunt_fraction_range := (0.05, 0.20),
      anion_gap_elevated := true, typical_anion_gap := (18, 30),
      lactate_effect := (4.0, 15.0), potassium_effect := (0, 1.0) }
  | ClinicalCondition.LACTIC_ACIDOSIS_SHOCK =>
    { primary_disorder := Disorder.METABOLIC_ACIDOSIS,
      ph_range := (7.00, 7.15, 7.25), pco2_effect := (-18, -8), hco3_effect := (-16, -8),
      po2_effect := (50, 80), aa_gradient_elevated := true,
      aa_gradient_range := (25.0, 50.0), shunt_fraction_range := (0.10, 0.25),
      anion_gap_elevated := true, typical_anion_gap := (22, 35),
      lactate_effect := (6.0, 20.0), potassium_effect := (0.5, 2.0) }
  | ClinicalCondition.LACTIC_ACIDOSIS_SEIZURE =>
    { primary_disorder := Disorder.METABOLIC_ACIDOSIS,
      ph_range := (7.15, 7.25, 7.35), pco2_effect := (-10, 0), hco3_effect := (-10, -4),
      po2_effect := (70, 95), aa_gradient_elevated := false,
      aa_gradient_range := (8.0, 15.0), shunt_fraction_range := (0.0, 0.0),
      anion_gap_elevated := true, typical_anion_gap := (16, 24),
      lactate_effect := (3.0, 10.0), potassium_effect := (0.3, 1.5) }
  | ClinicalCondition.RENAL_FAILURE_ACUTE =>
    { primary_disorder := Disorder.METABOLIC_ACIDOSIS,
      ph_range := (7.20, 7.30, 7.38), pco2_effect := (-10, -3), hco3_effect := (-10, -4),
      po2_effect := (75, 95), aa_gradient_elevated := false,
      aa_gradient_range := (8.0, 15.0), shunt_fraction_range := (0.0, 0.05),
      anion_gap_elevated := true, typical_anion_gap := (14, 22),
      potassium_effect := (0.5, 2.5), lactate_effect := (1.0, 3.0) }
  | ClinicalCondition.RENAL_FAILURE_CHRONIC =>
    { primary_disorder := Disorder.METABOLIC_ACIDOSIS,
      ph_range := (7.28, 7.35, 7.40), pco2_effect := (-8, 0), hco3_effect := (-8, -2),
      po2_effect := (80, 100), aa_gradient_elevated := false,
      aa_gradient_range := (8.0, 15.0), shunt_fraction_range := (0.0, 0.0),
      anion_gap_elevated := true, typical_anion_gap := (12, 18),
      potassium_effect := (0, 1.5) }
  | ClinicalCondition.TOXIC_INGESTION_METHANOL =>
    { primary_disorder := Disorder.METABOLIC_ACIDOSIS,
      ph_range := (6.90, 7.10, 7.25), pco2_effect := (-20, -10), hco3_effect := (-20, -12),
      po2_effect := (90, 105), aa_gradient_elevated := false,
      aa_gradient_range := (5.0, 12.0), shunt_fraction_range := (0.0, 0.0),
      anion_gap_elevated := true, typical_anion_gap := (25, 40),
      lactate_effect := (1.0, 3.0) }
  | ClinicalCondition.TOXIC_INGESTION_ETHYLENE_GLYCOL =>
    { primary_disorder := Disorder.METABOLIC_ACIDOSIS,
      ph_range := (6.90, 7.10, 7.25), pco2_effect := (-20, -10), hco3_effect := (-20, -12),
      po2_effect := (90, 105), aa_gradient_elevated := false,
      aa_gradient_range := (5.0, 12.0), shunt_fraction_range := (0.0, 0.0),
      anion_gap_elevated := true, typical_anion_gap := (25, 40),
      lactate_effect := (1.0, 3.0) }
  | ClinicalCondition.TOXIC_INGESTION_SALICYLATE =>
    { primary_disorder := Disorder.METABOLIC_ACIDOSIS,
      ph_range := (7.30, 7.45, 7.55), pco2_effect := (-15, -5), hco3_effect := (-12, -4),
      po2_effect := (85, 100), aa_gradient_elevated := false,
      aa_gradient_range := (5.0, 12.0), shunt_fraction_range := (0.0, 0.0),
      anion_gap_elevated := true, typical_anion_gap := (18, 28),
      glucose_effect := (60, 100), lactate_effect := (2.0, 6.0),
      affects_respiratory_drive := true, respiratory_drive_multiplier := 1.6 }
  | ClinicalCondition.STARVATION_KETOSIS =>
    { primary_disorder := Disorder.METABOLIC_ACIDOSIS,
      ph_range := (7.30, 7.36, 7.40), pco2_effect := (-5, 0), hco3_effect := (-6, -2),
      po2_effect := (90, 100), aa_gradient_elevated := false,
      aa_gradient_range := (5.0, 12.0), shunt_fraction_range := (0.0, 0.0),
      anion_gap_elevated := true, typical_anion_gap := (12, 18),
      glucose_effect := (50, 80), lactate_effect := (0.5, 1.5) }
  | ClinicalCondition.ALCOHOLIC_KETOACIDOSIS =>
    { primary_disorder := Disorder.METABOLIC_ACIDOSIS,
      ph_range := (7.20, 7.32, 7.42), pco2_effect := (-12, -3), hco3_effect := (-12, -4),
      po2_effect := (85, 100), aa_gradient_elevated := false,
      aa_gradient_range := (5.0, 12.0), shunt_fraction_range := (0.0, 0.0),
      anion_gap_elevated := true, typical_anion_gap := (18, 28),
      glucose_effect := (40, 150), lactate_effect := (2.0, 5.0) }
  | ClinicalCondition.DIARRHEA =>
    { primary_disorder := Disorder.METABOLIC_ACIDOSIS,
      ph_range := (7.25, 7.32, 7.38), pco2_effect := (-10, -3), hco3_effect := (-10, -4),
      po2_effect := (90, 100), aa_gradient_elevated := false,
      aa_gradient_range := (5.0, 12.0), shunt_fraction_range := (0.0, 0.0),
      anion_gap_elevated := false, typical_anion_gap := (8, 12),
      potassium_effect := (-1.5, -0.3), chloride_effect := (4, 12) }
  | ClinicalCondition.RTA_TYPE1 =>
    { primary_disorder := Disorder.METABOLIC_ACIDOSIS,
      ph_range := (7.25, 7.32, 7.38), pco2_effect := (-8, -2), hco3_effect := (-14, -6),
      po2_effect := (90, 100), aa_gradient_elevated := false,
      aa_gradient_range := (5.0, 12.0), shunt_fraction_range := (0.0, 0.0),
      anion_gap_elevated := false, typical_anion_gap := (8, 12),
      potassium_effect := (-1.5, -0.3) }
  | ClinicalCondition.RTA_TYPE2 =>
    { primary_disorder := Disorder.METABOLIC_ACIDOSIS,
      ph_range := (7.30, 7.35, 7.40), pco2_effect := (-5, 0), hco3_effect := (-8, -3),
      po2_effect := (90, 100), aa_gradient_elevated := false,
      aa_gradient_range := (5.0, 12.0), shunt_fraction_range := (0.0, 0.0),
      anion_gap_elevated := false, typical_anion_gap := (8, 12),
      potassium_effect := (-1.0, 0) }
  | ClinicalCondition.RTA_TYPE4 =>
    { primary_disorder := Disorder.METABOLIC_ACIDOSIS,
      ph_range := (7.30, 7.35, 7.40), pco2_effect := (-5, 0), hco3_effect := (-6, -2),
      po2_effect := (90, 100), aa_gradient_elevated := false,
      aa_gradient_range := (5.0, 12.0), shunt_fraction_range := (0.0, 0.0),
      anion_gap_elevated := false, typical_anion_gap := (8, 12),
      potassium_effect := (0.5, 2.0) }
  | ClinicalCondition.SALINE_INFUSION =>
    { primary_disorder := Disorder.METABOLIC_ACIDOSIS,
      ph_range := (7.32, 7.36, 7.40), pco2_effect := (-3, 0), hco3_effect := (-4, -1),
      po2_effect := (90, 100), aa_gradient_elevated := false,
      aa_gradient_range := (5.0, 12.0), shunt_fraction_range := (0.0, 0.0),
      anion_gap_elevated := false, typical_anion_gap := (8, 12),
      chloride_effect := (4, 10) }
  | ClinicalCondition.VOMITING =>
    { primary_disorder := Disorder.METABOLIC_ALKALOSIS,
      ph_range := (7.45, 7.52, 7.60), pco2_effect := (2, 10), hco3_effect := (4, 14),
      po2_effect := (75, 90), aa_gradient_elevated := false,
      aa_gradient_range := (5.0, 12.0), shunt_fraction_range := (0.0, 0.0),
      anion_gap_elevated := false, potassium_effect := (-1.5, -0.5),
      chloride_effect := (-15, -5) }
  | ClinicalCondition.NG_SUCTION =>
    { primary_disorder := Disorder.METABOLIC_ALKALOSIS,
      ph_range := (7.45, 7.52, 7.58), pco2_effect := (3, 10), hco3_effect := (4, 12),
      po2_effect := (75, 90), aa_gradient_elevated := false,
      aa_gradient_range := (5.0, 12.0), shunt_fraction_range := (0.0, 0.0),
      anion_gap_elevated := false, potassium_effect := (-1.2, -0.3),
      chloride_effect := (-12, -4) }
  | ClinicalCondition.DIURETIC_USE =>
    { primary_disorder := Disorder.METABOLIC_ALKALOSIS,
      ph_range := (7.44, 7.48, 7.55), pco2_effect := (2, 8), hco3_effect := (3, 10),
      po2_effect := (80, 95), aa_gradient_elevated := false,
      aa_gradient_range := (5.0, 12.0), shunt_fraction_range := (0.0, 0.0),
      anion_gap_elevated := false, potassium_effect := (-1.0, -0.3),
      chloride_effect := (-8, -2) }
  | ClinicalCondition.HYPOKALEMIA =>
    { primary_disorder := Disorder.METABOLIC_ALKALOSIS,
      ph_range := (7.44, 7.48, 7.52), pco2_effect := (2, 6), hco3_effect := (2, 8),
      po2_effect := (85, 100), aa_gradient_elevated := false,
      aa_gradient_range := (5.0, 12.0), shunt_fraction_range := (0.0, 0.0),
      anion_gap_elevated := false, potassium_effect := (-1.5, -0.8) }
  | ClinicalCondition.HYPERALDOSTERONISM =>
    { primary_disorder := Disorder.METABOLIC_ALKALOSIS,
      ph_range := (7.44, 7.50, 7.55), pco2_effect := (2, 8), hco3_effect := (4, 12),
      po2_effect := (85, 100), aa_gradient_elevated := false,
      aa_gradient_range := (5.0, 12.0), shunt_fraction_range := (0.0, 0.0),
      anion_gap_elevated := false, sodium_effect := (2, 8),
      potassium_effect := (-1.2, -0.5) }
  | ClinicalCondition.MILK_ALKALI_SYNDROME =>
    { primary_disorder := Disorder.METABOLIC_ALKALOSIS,
      ph_range := (7.48, 7.55, 7.62), pco2_effect := (4, 12), hco3_effect := (6, 16),
      po2_effect := (80, 95), aa_gradient_elevated := false,
      aa_gradient_range := (5.0, 12.0), shunt_fraction_range := (0.0, 0.0),
      anion_gap_elevated := false }
  | ClinicalCondition.POST_HYPERCAPNIA =>
    { primary_disorder := Disorder.METABOLIC_ALKALOSIS,
      ph_range := (7.45, 7.50, 7.55), pco2_effect := (-5, 5), hco3_effect := (4, 12),
      po2_effect := (80, 95), aa_gradient_elevated := false,
      aa_gradient_range := (5.0, 12.0), shunt_fraction_range := (0.0, 0.0),
      anion_gap_elevated := false }
  | ClinicalCondition.HEALTHY =>
    { primary_disorder := Disorder.NORMAL,
      ph_range := (7.38, 7.40, 7.42), pco2_effect := (-2, 2), hco3_effect := (-1, 1),
      po2_effect := (90, 100), aa_gradient_elevated := false,
      aa_gradient_range := (5.0, 12.0), shunt_fraction_range := (0.0, 0.0),
      anion_gap_elevated := false, typical_anion_gap := (8, 12),
      lactate_effect := (0.5, 1.5) }
  | ClinicalCondition.PREGNANCY =>
    { primary_disorder := Disorder.RESPIRATORY_ALKALOSIS,
      ph_range := (7.40, 7.44, 7.46), pco2_effect := (-10, -6), hco3_effect := (-4, -2),
      po2_effect := (100, 110), aa_gradient_elevated := false,
      aa_gradient_range := (5.0, 12.0), shunt_fraction_range := (0.0, 0.0),
      anion_gap_elevated := false }
  | ClinicalCondition.HIGH_ALTITUDE =>
    { primary_disorder := Disorder.RESPIRATORY_ALKALOSIS,
      ph_range := (7.42, 7.46, 7.50), pco2_effect := (-12, -5), hco3_effect := (-4, -1),
      po2_effect := (55, 75), aa_gradient_elevated := false,
      aa_gradient_range := (5.0, 12.0), shunt_fraction_range := (0.0, 0.0),
      anion_gap_elevated := false }

/-! ## Scenario Mapper (scenarios/scenario_mapper.py) -/

/-- `PhysiologyDeltas` with the dataclass defaults. -/
structure PhysiologyDeltas where
  ph_delta : ℝ := 0.0
  pco2_delta : ℝ := 0.0
  hco3_delta : ℝ := 0.0
  aa_gradient_elevated : Bool := false
  target_aa_gradient : ℝ := 10.0
  shunt_fraction : ℝ := 0.0
  po2_target : ℝ := 95.0
  sodium_delta : ℝ := 0.0
  potassium_delta : ℝ := 0.0
  chloride_delta : ℝ := 0.0
  glucose_target : ℝ := 95.0
  lactate_target : ℝ := 1.0
  anion_gap_elevated : Bool := false
  target_anion_gap : ℝ := 10.0
  respiratory_drive_multiplier : ℝ := 1.0
  compensation_blocked : Bool := false

/-- The severity scaling factor of `ScenarioMapper.map_single_condition`
(mild 0.33, moderate 0.66, severe 1.0). -/
def severityFactor (severity : Severity) : ℝ :=
  match severity with
  | Severity.MILD => 0.33
  | Severity.MODERATE => 0.66
  | Severity.SEVERE => 1.0

/-- `ScenarioMapper.map_single_condition`: linear interpolation of every
effect range by the severity factor (`_apply_acid_base_effect`,
`_apply_oxygenation_effect`, `_apply_electrolyte_effect` inlined; the
patient baselines fetched by `_apply_acid_base_effect` are dead code in the
Python source and are omitted). -/
def mapSingleCondition (condition : ClinicalCondition) (severity : Severity)
    (_patient : PatientFactors) : PhysiologyDeltas :=
  let effect := getConditionEffect condition
  let sf := severityFactor severity
  { pco2_delta := effect.pco2_effect.1 + (effect.pco2_effect.2 - effect.pco2_effect.1) * sf,
    hco3_delta := effect.hco3_effect.1 + (effect.hco3_effect.2 - effect.hco3_effect.1) * sf,
    aa_gradient_elevated := effect.aa_gradient_elevated,
    target_aa_gradient := effect.aa_gradient_range.1 +
      (effect.aa_gradient_range.2 - effect.aa_gradient_range.1) * sf,
    shunt_fraction := effect.shunt_fraction_range.1 +
      (effect.shunt_fraction_range.2 - effect.shunt_fraction_range.1) * sf,
    po2_target := effect.po2_effect.1 + (effect.po2_effect.2 - effect.po2_effect.1) * (1 - sf),
    sodium_delta := effect.sodium_effect.1 +
      (effect.sodium_effect.2 - effect.sodium_effect.1) * sf,
    potassium_delta := effect.potassium_effect.1 +
      (effect.potassium_effect.2 - effect.potassium_effect.1) * sf,
    chloride_delta := effect.chloride_effect.1 +
      (effect.chloride_effect.2 - effect.chloride_effect.1) * sf,
    glucose_target := effect.glucose_effect.1 +
      (effect.glucose_effect.2 - effect.glucose_effect.1) * sf,
    lactate_target := effect.lactate_effect.1 +
      (effect.lactate_effect.2 - effect.lactate_effect.1) * sf,
    anion_gap_elevated := if effect.anion_gap_elevated then true else false,
    target_anion_gap :=
      if effect.anion_gap_elevated then
        effect.typical_anion_gap.1 +
          (effect.typical_anion_gap.2 - effect.typical_anion_gap.1) * sf
      else 10.0,
    respiratory_drive_multiplier :=
      if effect.affects_respiratory_drive then effect.respiratory_drive_multiplier else 1.0,
    compensation_blocked := if effect.compensation_blocked then true else false }

/-- `ScenarioMapper._combine_deltas`: additive acid-base and electrolyte
deltas, worse-of oxygenation pathology, shunt super-imposition capped at
0.5, max glucose/lactate, max anion-gap target, multiplicative respiratory
drive, OR-ed compensation blocking. -/
def combineDeltas (primary secondary : PhysiologyDeltas) : PhysiologyDeltas :=
  { pco2_delta := primary.pco2_delta + secondary.pco2_delta,
    hco3_delta := primary.hco3_delta + secondary.hco3_delta,
    aa_gradient_elevated := primary.aa_gradient_elevated || secondary.aa_gradient_elevated,
    target_aa_gradient := max primary.target_aa_gradient secondary.target_aa_gradient,
    shunt_fraction := min 0.5 (max primary.shunt_fraction secondary.shunt_fraction +
      min primary.shunt_fraction secondary.shunt_fraction * 0.5),
    po2_target := min primary.po2_target secondary.po2_target,
    sodium_delta := primary.sodium_delta + secondary.sodium_delta,
    potassium_delta := primary.potassium_delta + secondary.potassium_delta,
    chloride_delta := primary.chloride_delta + secondary.chloride_delta,
    glucose_target := max primary.glucose_target secondary.glucose_target,
    lactate_target := max primary.lactate_target secondary.lactate_target,
    anion_gap_elevated := primary.anion_gap_elevated || secondary.anion_gap_elevated,
    target_anion_gap :=
      if primary.anion_gap_elevated || secondary.anion_gap_elevated then
        max primary.target_anion_gap secondary.target_anion_gap
      else (10.0 : ℝ),
    respiratory_drive_multiplier :=
      primary.respiratory_drive_multiplier * secondary.respiratory_drive_multiplier,
    compensation_blocked := primary.compensation_blocked || secondary.compensation_blocked }

/-- `ScenarioMapper._apply_interaction_rules`.  The salicylate rule and the
COPD-plus-alkalosis rule are `pass` statements in the Python source; only
the opioid rule and the sepsis rule modify the deltas. -/
def applyInteractionRules (deltas : PhysiologyDeltas)
    (conditions : List ClinicalCondition) : PhysiologyDeltas :=
  let d1 :=
    if ClinicalCondition.OPIOID_OVERDOSE ∈ conditions then
      if deltas.hco3_delta < -4 then
        let d :=
          if deltas.pco2_delta < 0 then
            { deltas with pco2_delta :=
                deltas.pco2_delta * deltas.respiratory_drive_multiplier }
          else deltas
        { d with compensation_blocked := true }
      else deltas
    else deltas
  if ClinicalCondition.LACTIC_ACIDOSIS_SEPSIS ∈ conditions then
    { d1 with respiratory_drive_multiplier := max d1.respiratory_drive_multiplier 1.3 }
  else d1

/-- `ScenarioMapper.map_multiple_conditions`.  A single condition is
returned without running the interaction rules; with two or more, the
deltas are folded pairwise and the interaction rules are applied once.
The per-condition severity lookup `severities.get(c, MODERATE)` is modelled
with `Option.getD`. -/
def mapMultipleConditions (conditions : List ClinicalCondition)
    (severities : ClinicalCondition → Option Severity)
    (patient : PatientFactors) : PhysiologyDeltas :=
  match conditions with
  | [] => {}
  | c :: rest =>
    let combined := mapSingleCondition c ((severities c).getD Severity.MODERATE) patient
    match rest with
    | [] => combined
    | _ =>
      let folded := rest.foldl
        (fun acc c2 =>
          combineDeltas acc (mapSingleCondition c2 ((severities c2).getD Severity.MODERATE) patient))
        combined
      applyInteractionRules folded conditions

/-! ## Interpretation Engine (interpretation.py)

The engine's primary-disorder classifier returns one of eleven fixed strings;
the compensation assessor then dispatches on Python substring tests
(`"Metabolic Acidosis" in primary`, checked in the order Normal, Metabolic
Acidosis, Metabolic Alkalosis, Respiratory Acidosis, Respiratory Alkalosis).
We model the eleven strings as an inductive type; the substring semantics
of each constructor is recorded in the dispatch function below. -/

/-- The eleven result strings of `InterpretationEngine._identify_primary_disorder`. -/
inductive PrimaryLabel where
  /-- "Compensated Metabolic Acidosis" -/
  | compMetAcid
  /-- "Compensated Respiratory Acidosis or Metabolic Alkalosis" -/
  | compRespAcidOrMetAlk
  /-- "Normal" -/
  | normalLabel
  /-- "Respiratory Acidosis" -/
  | respAcid
  /-- "Metabolic Acidosis" -/
  | metAcid
  /-- "Mixed Respiratory and Metabolic Acidosis" -/
  | mixedRespMetAcid
  /-- "Acidemia - Mixed Disorder" -/
  | acidemiaMixed
  /-- "Respiratory Alkalosis" -/
  | respAlk
  /-- "Metabolic Alkalosis" -/
  | metAlk
  /-- "Mixed Respiratory Alkalosis and Metabolic Alkalosis" -/
  | mixedRespAlkMetAlk
  /-- "Alkalemia - Mixed Disorder" -/
  | alkalemiaMixed
  deriving DecidableEq, Repr

/-- `InterpretationEngine._identify_primary_disorder` against the fixed
normal bands pH 7.35-7.45, pCO2 35-45, HCO3 22-26. -/
def identifyPrimary (ph pco2 hco3 : ℝ) : PrimaryLabel :=
  if 7.35 ≤ ph ∧ ph ≤ 7.45 then
    if pco2 < 35 ∧ hco3 < 22 then PrimaryLabel.compMetAcid
    else if pco2 > 45 ∧ hco3 > 26 then PrimaryLabel.compRespAcidOrMetAlk
    else PrimaryLabel.normalLabel
  else if ph < 7.35 then
    if pco2 > 45 ∧ hco3 ≤ 26 then PrimaryLabel.respAcid
    else if hco3 < 22 ∧ pco2 ≤ 45 then PrimaryLabel.metAcid
    else if pco2 > 45 ∧ hco3 < 22 then PrimaryLabel.mixedRespMetAcid
    else PrimaryLabel.acidemiaMixed
  else
    if pco2 < 35 ∧ hco3 ≥ 22 then PrimaryLabel.respAlk
    else if hco3 > 26 ∧ pco2 ≥ 35 then PrimaryLabel.metAlk
    else if pco2 < 35 ∧ hco3 > 26 then PrimaryLabel.mixedRespAlkMetAlk
    else PrimaryLabel.alkalemiaMixed

/-- `InterpretationEngine._assess_compensation` (status and implied
secondary disorder; the prose description is omitted).  Dispatch follows
the Python substring tests: `"Normal"` matches only the `Normal` label;
`"Metabolic Acidosis"` matches the labels `Metabolic Acidosis`,
`Compensated Metabolic Acidosis` and
`Mixed Respiratory and Metabolic Acidosis`; `"Metabolic Alkalosis"` matches
`Metabolic Alkalosis`,
`Compensated Respiratory Acidosis or Metabolic Alkalosis` and
`Mixed Respiratory Alkalosis and Metabolic Alkalosis`; the two remaining
respiratory labels match their own substrings; the two `... - Mixed
Disorder` labels match nothing and fall through to the `Mixed` branch.
Acute-vs-chronic duration is inferred from HCO3 (> 30 chronic for
respiratory acidosis, < 18 chronic for respiratory alkalosis). -/
def assessCompensationInterp (pco2 hco3 : ℝ) (primary : PrimaryLabel) :
    String × Option String :=
  match primary with
  | PrimaryLabel.normalLabel => ("N/A", none)
  | PrimaryLabel.compMetAcid | PrimaryLabel.metAcid | PrimaryLabel.mixedRespMetAcid =>
    let expected := expectedPco2MetabolicAcidosis hco3
    if pco2 < expected.1 then ("Excessive", some "Respiratory Alkalosis")
    else if pco2 > expected.2 then ("Inadequate", some "Respiratory Acidosis")
    else ("Appropriate", none)
  | PrimaryLabel.compRespAcidOrMetAlk | PrimaryLabel.metAlk
  | PrimaryLabel.mixedRespAlkMetAlk =>
    let expected := expectedPco2MetabolicAlkalosis hco3
    if pco2 > expected.2 then ("Excessive", some "Respiratory Acidosis")
    else if pco2 < expected.1 then ("Inadequate", some "Respiratory Alkalosis")
    else ("Appropriate", none)
  | PrimaryLabel.respAcid =>
    let expected :=
      if hco3 > 30 then expectedHco3RespiratoryAcidosisChronic pco2
      else expectedHco3RespiratoryAcidosisAcute pco2
    if hco3 > expected.2 then ("Excessive", some "Metabolic Alkalosis")
    else if hco3 < expected.1 then ("Inadequate", some "Metabolic Acidosis")
    else ("Appropriate", none)
  | PrimaryLabel.respAlk =>
    let expected :=
      if hco3 < 18 then expectedHco3RespiratoryAlkalosisChronic pco2
      else expectedHco3RespiratoryAlkalosisAcute pco2
    if hco3 < expected.1 then ("Excessive", some "Metabolic Acidosis")
    else if hco3 > expected.2 then ("Inadequate", some "Metabolic Alkalosis")
    else ("Appropriate", none)
  | PrimaryLabel.acidemiaMixed | PrimaryLabel.alkalemiaMixed => ("Mixed", none)

/-- `InterpretationEngine._determine_severity`: worse of pH extremity and
hypoxemia extremity. -/
def determineSeverity (ph po2 fio2 : ℝ) : InterpretationSeverity :=
  if ph < 7.10 ∨ ph > 7.60 then InterpretationSeverity.CRITICAL
  else if po2 < 40 ∧ fio2 = 0.21 then InterpretationSeverity.CRITICAL
  else if ph < 7.20 ∨ ph > 7.55 then InterpretationSeverity.SEVERE
  else if po2 < 50 then InterpretationSeverity.SEVERE
  else if ph < 7.30 ∨ ph > 7.50 then InterpretationSeverity.MODERATE
  else if po2 < 60 then InterpretationSeverity.MODERATE
  else if ph < 7.35 ∨ ph > 7.45 then InterpretationSeverity.MILD
  else if po2 < 80 then InterpretationSeverity.MILD
  else InterpretationSeverity.NORMAL

/-- `BloodGasResult` (numeric fields; the attached interpretation and the
`GenerationParams` audit record, which merely copies the inputs, are handled
at the `generateBloodGas` level).  `pf_ratio_val` is the source field
`pao2_fio2_ratio`. -/
structure BloodGasResult where
  ph : ℝ
  pco2 : ℝ
  po2 : ℝ
  hco3 : ℝ
  base_excess : ℝ
  sao2 : ℝ
  fio2 : ℝ
  pf_ratio_val : ℝ
  aa_gradient : ℝ
  expected_aa_gradient : ℝ
  sodium : ℝ
  potassium : ℝ
  chloride : ℝ
  glucose : ℝ
  anion_gap : ℝ
  corrected_anion_gap : ℝ
  delta_gap : ℝ
  lactate : ℝ
  hemoglobin : ℝ
  albumin : ℝ

/-- `ClinicalInterpretation` (classification fields; the free-text
description, implication and teaching-point fields are omitted — they never
feed back into any computation and no claim refers to them). -/
structure ClinicalInterpretation where
  primary_disorder : PrimaryLabel
  compensation_status : String
  secondary_disorder : Option String
  severity : InterpretationSeverity

/-- `InterpretationEngine.interpret`: pure classifier over the finished
result values. -/
def interpret (result : BloodGasResult) : ClinicalInterpretation :=
  let primary := identifyPrimary result.ph result.pco2 result.hco3
  let comp := assessCompensationInterp result.pco2 result.hco3 primary
  ⟨primary, comp.1, comp.2, determineSeverity result.ph result.po2 result.fio2⟩

/-! ## Generation Orchestrator (generator.py) -/

/-- `_generate_from_disorder`: acid-base generation, optional secondary
mixing, oxygenation, electrolytes, variability on every primary value, then
recomputation of the derived values (SaO2 gets one further noise pass). -/
def generateFromDisorder (primary_disorder : Disorder) (severity : Severity)
    (compensation : Compensation) (secondary_disorder : Option Disorder)
    (duration : Duration) (patient : PatientFactors) (fio2 : ℝ)
    (cfg : VariabilityConfig) (g : RandomState) : BloodGasResult × RandomState :=
  let baseline_pco2 := patient.baselinePco2
  let baseline_hco3 := patient.baselineHco3
  let ab0 := generateForDisorder primary_disorder severity compensation duration
    baseline_pco2 baseline_hco3
  let ab :=
    match secondary_disorder with
    | some sd =>
      if sd = Disorder.NORMAL then ab0
      else applySecondaryDisorder ab0 sd Severity.MODERATE
    | none => ab0
  let aa_elevated := primary_disorder = Disorder.RESPIRATORY_ACIDOSIS
  let target_aa : Option ℝ :=
    if primary_disorder = Disorder.RESPIRATORY_ACIDOSIS then some 30.0 else none
  let shunt_fraction : ℝ :=
    if primary_disorder = Disorder.RESPIRATORY_ACIDOSIS then 0.10 else 0.0
  let oxy := generateOxygenation fio2 ab.pco2 patient.age
    (if aa_elevated then true else false) target_aa shunt_fraction ab.ph
    patient.temperature_celsius
  let ag_elevated := primary_disorder = Disorder.METABOLIC_ACIDOSIS
  let lyte := generateElectrolytes ab.hco3 ab.ph (if ag_elevated then true else false)
    none none none none none none none patient.baselineAlbumin
  let hemoglobin0 := patient.baselineHemoglobin
  let p1 := varyPh cfg ab.ph g
  let ph := p1.1
  let p2 := varyPco2 cfg ab.pco2 p1.2
  let pco2 := p2.1
  let p3 := varyPo2 cfg oxy.pao2 p2.2
  let po2 := p3.1
  let p4 := varyHco3 cfg ab.hco3 p3.2
  let hco3 := p4.1
  let p5 := varySodium cfg lyte.sodium p4.2
  let sodium := p5.1
  let p6 := varyPotassium cfg lyte.potassium p5.2
  let potassium := p6.1
  let p7 := varyChloride cfg lyte.chloride p6.2
  let chloride := p7.1
  let p8 := varyGlucose cfg lyte.glucose p7.2
  let glucose := p8.1
  let p9 := varyLactate cfg lyte.lactate p8.2
  let lactate := p9.1
  let p10 := varyHemoglobin cfg hemoglobin0 p9.2
  let hemoglobin := p10.1
  let sao2_0 := calculateSao2 po2 ph
  let p11 := varySao2 cfg sao2_0 p10.2
  let sao2 := p11.1
  let g11 := p11.2
  let base_excess := calculateBaseExcess ph hco3 hemoglobin
  let pf := pfRatioVal po2 fio2
  let aa_gradient := calculateAaGradientVal po2 pco2 fio2
  let expected_aa := expectedAaGradient patient.age
  let anion_gap := calculateAnionGap sodium chloride hco3
  let corrected_ag := correctAnionGapForAlbumin anion_gap lyte.albumin
  let delta_gap := calculateDeltaGap corrected_ag
  (⟨ph, pco2, po2, hco3, base_excess, sao2, fio2, pf, aa_gradient, expected_aa,
    sodium, potassium, chloride, glucose, anion_gap, corrected_ag, delta_gap,
    lactate, hemoglobin, lyte.albumin⟩, g11)

/-- The generator state reached in `_generate_from_disorder` after the ten
variability passes on the primary values, i.e. the state at which the extra
`vary_sao2` pass runs.  The body is the corresponding prefix of
`generateFromDisorder`, kept verbatim so the two are definitionally
equal. -/
def disorderNoiseState (primary_disorder : Disorder) (severity : Severity)
    (compensation : Compensation) (secondary_disorder : Option Disorder)
    (duration : Duration) (patient : PatientFactors) (fio2 : ℝ)
    (cfg : VariabilityConfig) (g : RandomState) : RandomState :=
  let baseline_pco2 := patient.baselinePco2
  let baseline_hco3 := patient.baselineHco3
  let ab0 := generateForDisorder primary_disorder severity compensation duration
    baseline_pco2 baseline_hco3
  let ab :=
    match secondary_disorder with
    | some sd =>
      if sd = Disorder.NORMAL then ab0
      else applySecondaryDisorder ab0 sd Severity.MODERATE
    | none => ab0
  let aa_elevated := primary_disorder = Disorder.RESPIRATORY_ACIDOSIS
  let target_aa : Option ℝ :=
    if primary_disorder = Disorder.RESPIRATORY_ACIDOSIS then some 30.0 else none
  let shunt_fraction : ℝ :=
    if primary_disorder = Disorder.RESPIRATORY_ACIDOSIS then 0.10 else 0.0
  let oxy := generateOxygenation fio2 ab.pco2 patient.age
    (if aa_elevated then true else false) target_aa shunt_fraction ab.ph
    patient.temperature_celsius
  let ag_elevated := primary_disorder = Disorder.METABOLIC_ACIDOSIS
  let lyte := generateElectrolytes ab.hco3 ab.ph (if ag_elevated then true else false)
    none none none none none none none patient.baselineAlbumin
  let hemoglobin0 := patient.baselineHemoglobin
  let p1 := varyPh cfg ab.ph g
  let p2 := varyPco2 cfg ab.pco2 p1.2
  let p3 := varyPo2 cfg oxy.pao2 p2.2
  let p4 := varyHco3 cfg ab.hco3 p3.2
  let p5 := varySodium cfg lyte.sodium p4.2
  let p6 := varyPotassium cfg lyte.potassium p5.2
  let p7 := varyChloride cfg lyte.chloride p6.2
  let p8 := varyGlucose cfg lyte.glucose p7.2
  let p9 := varyLactate cfg lyte.lactate p8.2
  (varyHemoglobin cfg hemoglobin0 p9.2).2

/-- The pre-noise scenario-mode pCO2: baseline plus mapped delta, clamped to
[12, 120] (`max(min(target_pco2, 120), 12)` in `_generate_from_scenarios`). -/
def scenarioTargetPco2 (baseline_pco2 pco2_delta : ℝ) : ℝ :=
  max (min (baseline_pco2 + pco2_delta) 120) 12

/-- The pre-noise scenario-mode HCO3: baseline plus mapped delta, clamped to
[4, 50]. -/
def scenarioTargetHco3 (baseline_hco3 hco3_delta : ℝ) : ℝ :=
  max (min (baseline_hco3 + hco3_delta) 50) 4

/-- The pre-noise scenario-mode pH: Henderson-Hasselbalch from the clamped
HCO3/pCO2, itself clamped to [6.80, 7.80].  (The clamped inputs are
positive, so the `ValueError` branch of `calculate_ph` is unreachable
here.) -/
def scenarioPh (target_hco3 target_pco2 : ℝ) : ℝ :=
  max (min (calculatePhVal target_hco3 target_pco2) 7.80) 6.80

/-- `_generate_from_scenarios`: scenario deltas applied to patient
baselines with survivability clamps, oxygenation driven by the mapped
pathology parameters, electrolytes driven by the mapped targets, then the
same variability-and-recompute sequence as disorder mode.  (The Python body
computes a first `base_excess` before variability that is overwritten after
variability; the dead first computation is omitted.) -/
def generateFromScenarios (conditions : List ClinicalCondition)
    (severities : ClinicalCondition → Option Severity)
    (patient : PatientFactors) (fio2 : ℝ) (cfg : VariabilityConfig)
    (g : RandomState) : BloodGasResult × RandomState :=
  let deltas := mapMultipleConditions conditions severities patient
  let baseline_pco2 := patient.baselinePco2
  let baseline_hco3 := patient.baselineHco3
  let target_pco2 := scenarioTargetPco2 baseline_pco2 deltas.pco2_delta
  let target_hco3 := scenarioTargetHco3 baseline_hco3 deltas.hco3_delta
  let ph0 := scenarioPh target_hco3 target_pco2
  let hemoglobin0 := patient.baselineHemoglobin
  let oxy := generateOxygenation fio2 target_pco2 patient.age
    deltas.aa_gradient_elevated (some deltas.target_aa_gradient)
    deltas.shunt_fraction ph0 patient.temperature_celsius
  let po2_0 := oxy.pao2
  let target_sodium := 140 + deltas.sodium_delta
  let target_potassium := 4.0 + deltas.potassium_delta
  let lyte := generateElectrolytes target_hco3 ph0 deltas.anion_gap_elevated
    (if deltas.anion_gap_elevated then some deltas.target_anion_gap else none)
    none (some target_sodium) (some target_potassium) none
    (some deltas.glucose_target) (some deltas.lactate_target)
    patient.baselineAlbumin
  let p1 := varyPh cfg ph0 g
  let ph := p1.1
  let p2 := varyPco2 cfg target_pco2 p1.2
  let pco2 := p2.1
  let p3 := varyPo2 cfg po2_0 p2.2
  let po2 := p3.1
  let p4 := varyHco3 cfg target_hco3 p3.2
  let hco3 := p4.1
  let p5 := varySodium cfg lyte.sodium p4.2
  let sodium := p5.1
  let p6 := varyPotassium cfg lyte.potassium p5.2
  let potassium := p6.1
  let p7 := varyChloride cfg lyte.chloride p6.2
  let chloride := p7.1
  let p8 := varyGlucose cfg lyte.glucose p7.2
  let glucose := p8.1
  let p9 := varyLactate cfg lyte.lactate p8.2
  let lactate := p9.1
  let p10 := varyHemoglobin cfg hemoglobin0 p9.2
  let hemoglobin := p10.1
  let sao2_0 := calculateSao2 po2 ph
  let p11 := varySao2 cfg sao2_0 p10.2
  let sao2 := p11.1
  let g11 := p11.2
  let base_excess := calculateBaseExcess ph hco3 hemoglobin
  let pf := pfRatioVal po2 fio2
  let aa_gradient := calculateAaGradientVal po2 pco2 fio2
  let expected_aa := expectedAaGradient patient.age
  let anion_gap := calculateAnionGap sodium chloride hco3
  let corrected_ag := correctAnionGapForAlbumin anion_gap lyte.albumin
  let delta_gap := calculateDeltaGap corrected_ag
  (⟨ph, pco2, po2, hco3, base_excess, sao2, fio2, pf, aa_gradient, expected_aa,
    sodium, potassium, chloride, glucose, anion_gap, corrected_ag, delta_gap,
    lactate, hemoglobin, lyte.albumin⟩, g11)

/-- `generate_blood_gas`: the single public entry point.  Builds the
variability engine (reseeding the global generator when a seed is given),
dispatches on the mode, and attaches the interpretation.  `GenerationParams`
merely copies the call inputs and is omitted from the embedding.  The
Python truthiness defaults `primary_disorder or NORMAL` and
`severity or MODERATE` are modelled with `Option.getD`. -/
def generateBloodGas (primary_disorder : Option Disorder)
    (severity : Option Severity) (compensation : Compensation)
    (secondary_disorder : Option Disorder) (duration : Duration)
    (conditions : Option (List ClinicalCondition))
    (condition_severities : ClinicalCondition → Option Severity)
    (patient_factors : Option PatientFactors) (fio2 : ℝ)
    (add_variability : Bool) (seed : Option ℤ) (g : RandomState) :
    (BloodGasResult × ClinicalInterpretation) × RandomState :=
  let patient := patient_factors.getD defaultPatient
  let cfg := createVariabilityConfig add_variability seed false
  let g0 := initVariability cfg g
  let rg :=
    match conditions with
    | some conds => generateFromScenarios conds condition_severities patient fio2 cfg g0
    | none =>
      generateFromDisorder (primary_disorder.getD Disorder.NORMAL)
        (severity.getD Severity.MODERATE) compensation secondary_disorder duration
        patient fio2 cfg g0
  ((rg.1, interpret rg.1), rg.2)

/-! ## Helper lemmas -/

/-- Bounding a base-10 logarithm from above by a rational `p / q` via the
integer comparison `x ^ q < 10 ^ p`. -/
lemma logb_ten_lt_div {x : ℝ} (p q : ℕ) (hx : 0 < x) (hq : 0 < q)
    (h : x ^ q < 10 ^ p) : Real.logb 10 x < (p : ℝ) / (q : ℝ) := by
  rw [Real.logb_lt_iff_lt_rpow (by norm_num) hx]
  have hq0 : (q : ℝ) ≠ 0 := Nat.cast_ne_zero.mpr hq.ne'
  have hpow : ((10 : ℝ) ^ ((p : ℝ) / (q : ℝ))) ^ q = 10 ^ p := by
    rw [← Real.rpow_natCast ((10 : ℝ) ^ ((p : ℝ) / (q : ℝ))) q,
      ← Real.rpow_mul (by norm_num : (0 : ℝ) ≤ 10), div_mul_cancel₀ _ hq0,
      Real.rpow_natCast]
  refine lt_of_pow_lt_pow_left₀ q (Real.rpow_nonneg (by norm_num) _) ?_
  rw [hpow]
  exact h

/-- Bounding a base-10 logarithm from below by a rational `p / q` via the
integer comparison `10 ^ p < x ^ q`. -/
lemma div_lt_logb_ten {x : ℝ} (p q : ℕ) (hx : 0 < x) (hq : 0 < q)
    (h : (10 : ℝ) ^ p < x ^ q) : (p : ℝ) / (q : ℝ) < Real.logb 10 x := by
  rw [Real.lt_logb_iff_rpow_lt (by norm_num) hx]
  have hq0 : (q : ℝ) ≠ 0 := Nat.cast_ne_zero.mpr hq.ne'
  have hpow : ((10 : ℝ) ^ ((p : ℝ) / (q : ℝ))) ^ q = 10 ^ p := by
    rw [← Real.rpow_natCast ((10 : ℝ) ^ ((p : ℝ) / (q : ℝ))) q,
      ← Real.rpow_mul (by norm_num : (0 : ℝ) ≤ 10), div_mul_cancel₀ _ hq0,
      Real.rpow_natCast]
  refine lt_of_pow_lt_pow_left₀ q hx.le ?_
  rw [hpow]
  exact h

/-! ## Claim C4 -/

/-- C4 counterexample: `calculate_hco3` called with the non-positive pCO2
argument `-5` does not fail with a domain error — it returns a value.  The
claim required every one of the three conversions to fail whenever its pCO2
argument is non-positive. -/
theorem c4_counterexample :
    calculateHco3 7.4 (-5) = Except.ok (0.03 * (-5) * (10 : ℝ) ^ ((7.4 : ℝ) - 6.1)) := rfl

/-- C4 (amended): only `calculate_ph` performs the domain check — it fails
exactly when `pCO2 ≤ 0` or `HCO3 ≤ 0` and otherwise returns
`6.1 + log10(HCO3 / (0.03 * pCO2))`; `calculate_hco3` and `calculate_pco2`
never fail and return the Henderson-Hasselbalch relation solved for the
requested quantity, for all real inputs. -/
theorem c4_amended :
    (∀ hco3 pco2 : ℝ,
      (calculatePh hco3 pco2 = Except.error "pCO2 and HCO3 must be positive"
          ↔ pco2 ≤ 0 ∨ hco3 ≤ 0)
        ∧ (0 < pco2 → 0 < hco3 →
            calculatePh hco3 pco2
              = Except.ok (6.1 + Real.logb 10 (hco3 / (0.03 * pco2)))))
      ∧ (∀ ph pco2 : ℝ,
          calculateHco3 ph pco2 = Except.ok (0.03 * pco2 * (10 : ℝ) ^ (ph - 6.1)))
      ∧ (∀ ph hco3 : ℝ,
          calculatePco2 ph hco3
            = Except.ok (hco3 / (0.03 * (10 : ℝ) ^ (ph - 6.1)))) := by
  refine ⟨fun hco3 pco2 => ⟨?_, ?_⟩, fun _ _ => rfl, fun _ _ => rfl⟩
  · constructor
    · intro h
      by_contra hc
      push_neg at hc
      unfold calculatePh at h
      rw [if_neg] at h
      · exact Except.noConfusion h
      · push_neg
        exact hc
    · intro h
      unfold calculatePh
      rw [if_pos h]
  · intro h1 h2
    unfold calculatePh calculatePhVal
    rw [if_neg]
    push_neg
    exact ⟨h1, h2⟩

/-- C4 witness: at `HCO3 = 24`, `pCO2 = 40` the guarded conversion succeeds
with the Henderson-Hasselbalch value, and the error case is characterised. -/
theorem c4_witness :
    calculatePh 24 40 = Except.ok (6.1 + Real.logb 10 ((24 : ℝ) / (0.03 * 40))) :=
  (c4_amended.1 24 40).2 (by norm_num) (by norm_num)

/-! ## Claim C5 -/

/-- C5: evaluating `calculate_p50` at the failing input (pH 7.30, a 0.1-unit
fall below 7.40, all other arguments at their defaults) yields `27.5` — a
right shift of only `0.5` mmHg, not the "approximately 5 mmHg per 0.1 pH-unit
fall" stated by the claim and by the code's own comment ("approximately
0.5 mmHg per 0.01 pH unit").  The code multiplies the pH deviation by `5.0`
per full pH unit. -/
theorem c5_p50_bohr_shift :
    calculateP50 7.30 37 40 1 = 27.5
      ∧ calculateP50 7.30 37 40 1 - calculateP50 7.40 37 40 1 = 0.5 := by
  unfold calculateP50
  norm_num

/-! ## Claim C9 -/

/-- C9: for every strictly positive pair `(HCO3, pCO2)`, composing the
conversions round-trips exactly: `calculate_ph` succeeds, and feeding its
result into `calculate_hco3` returns the original HCO3 (exactly, in the
real-number model — hence certainly within floating-point tolerance). -/
theorem c9_round_trip (hco3 pco2 : ℝ) (h1 : 0 < hco3) (h2 : 0 < pco2) :
    ∃ ph, calculatePh hco3 pco2 = Except.ok ph
      ∧ calculateHco3 ph pco2 = Except.ok hco3 := by
  refine ⟨calculatePhVal hco3 pco2, ?_, ?_⟩
  · unfold calculatePh
    rw [if_neg]
    push_neg
    exact ⟨h2, h1⟩
  · unfold calculateHco3 calculatePhVal
    have hr : 0 < hco3 / (0.03 * pco2) := by positivity
    have : (10 : ℝ) ^ (6.1 + Real.logb 10 (hco3 / (0.03 * pco2)) - 6.1)
        = hco3 / (0.03 * pco2) := by
      rw [show 6.1 + Real.logb 10 (hco3 / (0.03 * pco2)) - 6.1
            = Real.logb 10 (hco3 / (0.03 * pco2)) by ring]
      exact Real.rpow_logb (by norm_num) (by norm_num) hr
    rw [this]
    congr 1
    field_simp

/-- C9 witness at `(HCO3, pCO2) = (24, 40)`. -/
theorem c9_witness :
    ∃ ph, calculatePh 24 40 = Except.ok ph ∧ calculateHco3 ph 40 = Except.ok 24 :=
  c9_round_trip 24 40 (by norm_num) (by norm_num)

/-! ## Claim C10 -/

/-- C10: `calculate_sao2` is total — for every non-positive PaO2 it returns
exactly `0.0`, and for every positive PaO2 (and arbitrary pH, temperature,
pCO2 and 2,3-DPG arguments) the result lies in `[0, 100]`. -/
theorem c10_sao2_total (pao2 ph temperature pco2 dpg : ℝ) :
    (pao2 ≤ 0 → calculateSao2 pao2 ph temperature pco2 dpg = 0)
      ∧ (0 < pao2 →
          0 ≤ calculateSao2 pao2 ph temperature pco2 dpg
            ∧ calculateSao2 pao2 ph temperature pco2 dpg ≤ 100) := by
  constructor
  · intro h
    unfold calculateSao2
    rw [if_pos h]
    norm_num
  · intro h
    unfold calculateSao2
    rw [if_neg (not_le.mpr h)]
    constructor
    · exact le_min (le_max_right _ _) (by norm_num)
    · exact min_le_right _ _

/-- C10 witness: `calculate_sao2` returns 0 at PaO2 = −1 and a value in
`[0, 100]` at PaO2 = 50. -/
theorem c10_witness :
    calculateSao2 (-1) 7.4 37 40 1 = 0
      ∧ (0 ≤ calculateSao2 50 7.4 37 40 1 ∧ calculateSao2 50 7.4 37 40 1 ≤ 100) :=
  ⟨(c10_sao2_total (-1) 7.4 37 40 1).1 (by norm_num),
   (c10_sao2_total 50 7.4 37 40 1).2 (by norm_num)⟩

/-! ## Claim C6 -/

/-- C6 counterexample: `generate_electrolytes` with `HCO3 = 40`, target
anion gap `22`, default sodium (140) and no chloride target.  The algebraic
value `Na − AG − HCO3 = 78` lies below the clamp floor, so the returned
chloride is `85`, not `78` — the unconditional identity claimed fails. -/
theorem c6_counterexample :
    (generateElectrolytes 40 7.4 true (some 22) none none none none none none 4).chloride
      ≠ (generateElectrolytes 40 7.4 true (some 22) none none none none none none 4).sodium
        - (generateElectrolytes 40 7.4 true (some 22) none none none none none none 4).anion_gap
        - 40 := by
  norm_num [generateElectrolytes, pyOr, min_def, max_def]

/-- C6 (amended): with no chloride target, the chloride returned by
`generate_electrolytes` is the algebraic derivation `Na − AG − HCO3`
clamped to `[85, 120]` (and the anion-gap field is never recomputed from
it); in particular the exact identity `Cl = Na − AG − HCO3` holds whenever
that value already lies inside `[85, 120]`.  Chloride is never
independently randomised — the function draws no random values at all. -/
theorem c6_chloride_back_derived (hco3 ph : ℝ) (elev : Bool) (tag : Option ℝ)
    (cause : Option String) (st pt gt lact : Option ℝ) (alb : ℝ) :
    ((generateElectrolytes hco3 ph elev tag cause st pt none gt lact alb).chloride
        = max (min ((generateElectrolytes hco3 ph elev tag cause st pt none gt lact alb).sodium
              - (generateElectrolytes hco3 ph elev tag cause st pt none gt lact alb).anion_gap
              - hco3) 120) 85)
      ∧ (85 ≤ (generateElectrolytes hco3 ph elev tag cause st pt none gt lact alb).sodium
              - (generateElectrolytes hco3 ph elev tag cause st pt none gt lact alb).anion_gap
              - hco3 →
          (generateElectrolytes hco3 ph elev tag cause st pt none gt lact alb).sodium
              - (generateElectrolytes hco3 ph elev tag cause st pt none gt lact alb).anion_gap
              - hco3 ≤ 120 →
          (generateElectrolytes hco3 ph elev tag cause st pt none gt lact alb).chloride
            = (generateElectrolytes hco3 ph elev tag cause st pt none gt lact alb).sodium
              - (generateElectrolytes hco3 ph elev tag cause st pt none gt lact alb).anion_gap
              - hco3) := by
  refine ⟨rfl, fun h1 h2 => ?_⟩
  rw [show (generateElectrolytes hco3 ph elev tag cause st pt none gt lact alb).chloride
      = max (min ((generateElectrolytes hco3 ph elev tag cause st pt none gt lact alb).sodium
          - (generateElectrolytes hco3 ph elev tag cause st pt none gt lact alb).anion_gap
          - hco3) 120) 85 from rfl,
    min_eq_left h2, max_eq_left h1]

/-- C6 witness: with `HCO3 = 24` and target anion gap `10`, the derived
value `140 − 10 − 24 = 106` is inside the clamp and is returned exactly. -/
theorem c6_witness :
    (generateElectrolytes 24 7.4 false (some 10) none none none none none none 4).chloride
      = (generateElectrolytes 24 7.4 false (some 10) none none none none none none 4).sodium
        - (generateElectrolytes 24 7.4 false (some 10) none none none none none none 4).anion_gap
        - 24 :=
  (c6_chloride_back_derived 24 7.4 false (some 10) none none none none none 4).2
    (by norm_num [generateElectrolytes, pyOr]) (by norm_num [generateElectrolytes, pyOr])

/-! ## Claim C8 -/

/-- C8 counterexample: mild opioid overdose combined with three severe
anxiety-hyperventilation entries.  The folded pCO2 delta is
`23.25 − 3·10 = −6.75 < 0`, the respiratory-drive multiplier is `0.3`, yet
the combined delta is returned unmultiplied, because the folded HCO3 delta
(`0.99 − 3 = −2.01`) is not below `−4`: the interaction rule fires only
when a metabolic acidosis (HCO3 delta < −4) is present, which the claim
does not mention. -/
theorem c8_counterexample :
    (mapMultipleConditions
        [ClinicalCondition.OPIOID_OVERDOSE, ClinicalCondition.HYPERVENTILATION_ANXIETY,
         ClinicalCondition.HYPERVENTILATION_ANXIETY, ClinicalCondition.HYPERVENTILATION_ANXIETY]
        (fun c => if c = ClinicalCondition.OPIOID_OVERDOSE then some Severity.MILD
          else some Severity.SEVERE)
        defaultPatient).pco2_delta = -6.75
      ∧ (mapMultipleConditions
          [ClinicalCondition.OPIOID_OVERDOSE, ClinicalCondition.HYPERVENTILATION_ANXIETY,
           ClinicalCondition.HYPERVENTILATION_ANXIETY, ClinicalCondition.HYPERVENTILATION_ANXIETY]
          (fun c => if c = ClinicalCondition.OPIOID_OVERDOSE then some Severity.MILD
            else some Severity.SEVERE)
          defaultPatient).respiratory_drive_multiplier = 0.3
      ∧ (mapMultipleConditions
          [ClinicalCondition.OPIOID_OVERDOSE, ClinicalCondition.HYPERVENTILATION_ANXIETY,
           ClinicalCondition.HYPERVENTILATION_ANXIETY, ClinicalCondition.HYPERVENTILATION_ANXIETY]
          (fun c => if c = ClinicalCondition.OPIOID_OVERDOSE then some Severity.MILD
            else some Severity.SEVERE)
          defaultPatient).pco2_delta ≠ (-6.75 : ℝ) * 0.3 := by
  have hmem1 : ClinicalCondition.OPIOID_OVERDOSE
      ∈ [ClinicalCondition.OPIOID_OVERDOSE, ClinicalCondition.HYPERVENTILATION_ANXIETY,
         ClinicalCondition.HYPERVENTILATION_ANXIETY, ClinicalCondition.HYPERVENTILATION_ANXIETY] := by
    decide
  have hmem2 : ClinicalCondition.LACTIC_ACIDOSIS_SEPSIS
      ∉ [ClinicalCondition.OPIOID_OVERDOSE, ClinicalCondition.HYPERVENTILATION_ANXIETY,
         ClinicalCondition.HYPERVENTILATION_ANXIETY, ClinicalCondition.HYPERVENTILATION_ANXIETY] := by
    decide
  have hne : ClinicalCondition.HYPERVENTILATION_ANXIETY
      ≠ ClinicalCondition.OPIOID_OVERDOSE := by decide
  norm_num [mapMultipleConditions, mapSingleCondition, combineDeltas,
    applyInteractionRules, getConditionEffect, severityFactor, List.foldl,
    Option.getD, hmem1, hmem2, hne]

/-- C8 (amended): when `OPIOID_OVERDOSE` is among the conditions *and* the
accumulated HCO3 delta is below `−4` (a metabolic acidosis is present), the
interaction rules multiply the negative accumulated pCO2 delta by the
respiratory-drive multiplier and force `compensation_blocked`; without the
HCO3 condition the rule leaves the deltas unchanged (`compensation_blocked`
may still be true from the folded condition effects themselves). -/
theorem c8_opioid_interaction (d : PhysiologyDeltas)
    (conditions : List ClinicalCondition)
    (hmem : ClinicalCondition.OPIOID_OVERDOSE ∈ conditions)
    (hh : d.hco3_delta < -4) (hp : d.pco2_delta < 0) :
    (applyInteractionRules d conditions).pco2_delta
        = d.pco2_delta * d.respiratory_drive_multiplier
      ∧ (applyInteractionRules d conditions).compensation_blocked = true := by
  unfold applyInteractionRules
  rw [if_pos hmem, if_pos hh, if_pos hp]
  by_cases hs : ClinicalCondition.LACTIC_ACIDOSIS_SEPSIS ∈ conditions
  · rw [if_pos hs]
    exact ⟨rfl, rfl⟩
  · rw [if_neg hs]
    exact ⟨rfl, rfl⟩

/-- C8 witness: severe metabolic acidosis deltas (HCO3 delta −10,
compensatory pCO2 delta −5, suppressed drive 0.3) with opioid overdose in
the condition list. -/
theorem c8_witness :
    (applyInteractionRules
        { pco2_delta := -5, hco3_delta := -10, respiratory_drive_multiplier := 0.3 }
        [ClinicalCondition.OPIOID_OVERDOSE]).pco2_delta = (-5 : ℝ) * 0.3
      ∧ (applyInteractionRules
          { pco2_delta := -5, hco3_delta := -10, respiratory_drive_multiplier := 0.3 }
          [ClinicalCondition.OPIOID_OVERDOSE]).compensation_blocked = true :=
  c8_opioid_interaction _ _ (List.mem_singleton.mpr rfl) (by norm_num) (by norm_num)

/-! ## Claim C7 -/

/-- C7: in scenario mode the pre-noise pCO2 is the patient baseline plus the
mapped delta clamped to `[12, 120]`, the pre-noise HCO3 is baseline plus
delta clamped to `[4, 50]`, and the pre-noise pH is Henderson-Hasselbalch of
the clamped values clamped to `[6.80, 7.80]` (exposed through the pipeline
with variability disabled, where the returned primaries equal the pre-noise
values); each clamp is idempotent — a value already inside its bounds passes
through unchanged. -/
theorem c7_scenario_clamps :
    (∀ (conds : List ClinicalCondition) (sevs : ClinicalCondition → Option Severity)
        (patient : PatientFactors) (fio2 : ℝ) (cfg : VariabilityConfig) (g : RandomState),
      ((generateFromScenarios conds sevs patient fio2 { cfg with enabled := false } g).1).pco2
          = scenarioTargetPco2 patient.baselinePco2
              (mapMultipleConditions conds sevs patient).pco2_delta
        ∧ ((generateFromScenarios conds sevs patient fio2 { cfg with enabled := false } g).1).hco3
          = scenarioTargetHco3 patient.baselineHco3
              (mapMultipleConditions conds sevs patient).hco3_delta
        ∧ ((generateFromScenarios conds sevs patient fio2 { cfg with enabled := false } g).1).ph
          = scenarioPh
              (scenarioTargetHco3 patient.baselineHco3
                (mapMultipleConditions conds sevs patient).hco3_delta)
              (scenarioTargetPco2 patient.baselinePco2
                (mapMultipleConditions conds sevs patient).pco2_delta))
      ∧ (∀ b d : ℝ, 12 ≤ b + d → b + d ≤ 120 → scenarioTargetPco2 b d = b + d)
      ∧ (∀ b d : ℝ, 4 ≤ b + d → b + d ≤ 50 → scenarioTargetHco3 b d = b + d)
      ∧ (∀ h p : ℝ, 6.80 ≤ calculatePhVal h p → calculatePhVal h p ≤ 7.80 →
          scenarioPh h p = calculatePhVal h p) := by
  refine ⟨fun conds sevs patient fio2 cfg g => ⟨rfl, rfl, rfl⟩, ?_, ?_, ?_⟩
  · intro b d h1 h2
    unfold scenarioTargetPco2
    rw [min_eq_left h2, max_eq_left h1]
  · intro b d h1 h2
    unfold scenarioTargetHco3
    rw [min_eq_left h2, max_eq_left h1]
  · intro h p h1 h2
    unfold scenarioPh
    rw [min_eq_left h2, max_eq_left h1]

/-- C7 witness: concrete clamp idempotence instances, including a pH value
(`calculate_ph(24, 40) ≈ 7.40`) shown inside `[6.80, 7.80]` by rational
bounds on the base-10 logarithm. -/
theorem c7_witness :
    scenarioTargetPco2 40 10 = 40 + 10
      ∧ scenarioTargetHco3 24 (-6) = 24 + (-6)
      ∧ scenarioPh 24 40 = calculatePhVal 24 40 := by
  have hlow : (6.80 : ℝ) ≤ calculatePhVal 24 40 := by
    have h := div_lt_logb_ten (x := (24 : ℝ) / (0.03 * 40)) 7 10
      (by norm_num) (by norm_num) (by norm_num)
    unfold calculatePhVal
    norm_num at h ⊢
    linarith
  have hhigh : calculatePhVal 24 40 ≤ (7.80 : ℝ) := by
    have h := logb_ten_lt_div (x := (24 : ℝ) / (0.03 * 40)) 17 10
      (by norm_num) (by norm_num) (by norm_num)
    unfold calculatePhVal
    norm_num at h ⊢
    linarith
  exact ⟨c7_scenario_clamps.2.1 40 10 (by norm_num) (by norm_num),
    c7_scenario_clamps.2.2.1 24 (-6) (by norm_num) (by norm_num),
    c7_scenario_clamps.2.2.2 24 40 hlow hhigh⟩

/-! ## Claim C2 -/

/-- C2: two calls to `generate_blood_gas` with identical input arguments and
the same integer seed return identical outputs — the full result record,
the attached interpretation, and even the final generator state — no matter
what the global random-generator state was before each call: seeding
replaces the process-wide state by one determined solely by the seed, after
which the pipeline is a pure function of its arguments. -/
theorem c2_seeded_determinism (primary_disorder : Option Disorder)
    (severity : Option Severity) (compensation : Compensation)
    (secondary_disorder : Option Disorder) (duration : Duration)
    (conditions : Option (List ClinicalCondition))
    (condition_severities : ClinicalCondition → Option Severity)
    (patient_factors : Option PatientFactors) (fio2 : ℝ)
    (add_variability : Bool) (s : ℤ) (g1 g2 : RandomState) :
    generateBloodGas primary_disorder severity compensation secondary_disorder
        duration conditions condition_severities patient_factors fio2
        add_variability (some s) g1
      = generateBloodGas primary_disorder severity compensation secondary_disorder
        duration conditions condition_severities patient_factors fio2
        add_variability (some s) g2 := rfl

/-! ## Claim C1 -/

/-- With variability disabled, the compensation status attached to a
disorder-mode result is the interpretation-engine assessment of the exact
generated pH/pCO2/HCO3 triple. -/
lemma disorder_interp_shape (d : Disorder) (sev : Severity) (comp : Compensation)
    (dur : Duration) (patient : PatientFactors) (fio2 : ℝ) (seed : Option ℤ)
    (g : RandomState) :
    ((generateBloodGas (some d) (some sev) comp none dur none (fun _ => none)
        (some patient) fio2 false seed g).1.2).compensation_status
      = (assessCompensationInterp
          (generateForDisorder d sev comp dur patient.baselinePco2
            patient.baselineHco3).pco2
          (generateForDisorder d sev comp dur patient.baselinePco2
            patient.baselineHco3).hco3
          (identifyPrimary
            (generateForDisorder d sev comp dur patient.baselinePco2
              patient.baselineHco3).ph
            (generateForDisorder d sev comp dur patient.baselinePco2
              patient.baselineHco3).pco2
            (generateForDisorder d sev comp dur patient.baselinePco2
              patient.baselineHco3).hco3)).1 := rfl

/-- The classifier labels an acidemic sample with low HCO3 and
non-elevated pCO2 as metabolic acidosis. -/
lemma identifyPrimary_metAcid {ph pco2 hco3 : ℝ} (h1 : ph < 7.35)
    (h2 : hco3 < 22) (h3 : pco2 ≤ 45) :
    identifyPrimary ph pco2 hco3 = PrimaryLabel.metAcid := by
  unfold identifyPrimary
  rw [if_neg (fun hc => absurd hc.1 (not_le.mpr h1)), if_pos h1,
    if_neg (fun hc => absurd hc.1 (not_lt.mpr h3)), if_pos ⟨h2, h3⟩]

/-- The classifier labels an alkalemic sample with high HCO3 and
non-reduced pCO2 as metabolic alkalosis. -/
lemma identifyPrimary_metAlk {ph pco2 hco3 : ℝ} (h1 : 7.45 < ph)
    (h2 : 26 < hco3) (h3 : 35 ≤ pco2) :
    identifyPrimary ph pco2 hco3 = PrimaryLabel.metAlk := by
  unfold identifyPrimary
  rw [if_neg (fun hc => absurd hc.2 (not_le.mpr h1)),
    if_neg (not_lt.mpr (le_of_lt (lt_trans (by norm_num) h1))),
    if_neg (fun hc => absurd hc.1 (not_lt.mpr h3)), if_pos ⟨h2, h3⟩]

/-- The classifier labels an acidemic sample with elevated pCO2 but HCO3
above 26 as "Acidemia - Mixed Disorder". -/
lemma identifyPrimary_acidemiaMixed {ph pco2 hco3 : ℝ} (h1 : ph < 7.35)
    (h2 : 45 < pco2) (h3 : 26 < hco3) :
    identifyPrimary ph pco2 hco3 = PrimaryLabel.acidemiaMixed := by
  unfold identifyPrimary
  rw [if_neg (fun hc => absurd hc.1 (not_le.mpr h1)), if_pos h1,
    if_neg (fun hc => absurd hc.2 (not_le.mpr h3)),
    if_neg (fun hc => absurd hc.1 (not_lt.mpr (le_of_lt (lt_trans (by norm_num) h3)))),
    if_neg (fun hc => absurd hc.2 (not_lt.mpr (le_of_lt (lt_trans (by norm_num) h3))))]

/-- C1 counterexample: disorder mode, respiratory acidosis, moderate
severity, acute, `compensation = APPROPRIATE`, variability disabled.  The
generator picks pCO2 = 65 and HCO3 = 26.5 (midpoint of the acute window),
but 26.5 exceeds the classifier's normal HCO3 band (≤ 26), so the
interpretation engine labels the sample "Acidemia - Mixed Disorder" and
reports compensation status "Mixed", not "Appropriate". -/
theorem c1_counterexample :
    ((generateBloodGas (some Disorder.RESPIRATORY_ACIDOSIS) (some Severity.MODERATE)
        Compensation.APPROPRIATE none Duration.ACUTE none (fun _ => none)
        (some defaultPatient) 0.21 false none ⟨fun _ => 0, 0⟩).1.2).compensation_status
      ≠ "Appropriate" := by
  rw [disorder_interp_shape]
  have e1 : (generateForDisorder Disorder.RESPIRATORY_ACIDOSIS Severity.MODERATE
      Compensation.APPROPRIATE Duration.ACUTE defaultPatient.baselinePco2
      defaultPatient.baselineHco3).pco2 = 65 := by
    simp only [generateForDisorder]
    norm_num
  have e2 : (generateForDisorder Disorder.RESPIRATORY_ACIDOSIS Severity.MODERATE
      Compensation.APPROPRIATE Duration.ACUTE defaultPatient.baselinePco2
      defaultPatient.baselineHco3).hco3 = 26.5 := by
    simp only [generateForDisorder, expectedHco3RespiratoryAcidosisAcute]
    norm_num [show Duration.ACUTE ≠ Duration.CHRONIC from by decide]
  have e3 : (generateForDisorder Disorder.RESPIRATORY_ACIDOSIS Severity.MODERATE
      Compensation.APPROPRIATE Duration.ACUTE defaultPatient.baselinePco2
      defaultPatient.baselineHco3).ph = calculatePhVal 26.5 65 := by
    simp only [generateForDisorder, expectedHco3RespiratoryAcidosisAcute]
    norm_num [show Duration.ACUTE ≠ Duration.CHRONIC from by decide]
  have hph : calculatePhVal 26.5 65 < 7.35 := by
    unfold calculatePhVal
    have h := logb_ten_lt_div (x := (26.5 : ℝ) / (0.03 * 65)) 5 4
      (by norm_num) (by norm_num) (by norm_num)
    have h5 : ((5 : ℕ) : ℝ) / ((4 : ℕ) : ℝ) = 1.25 := by norm_num
    rw [h5] at h
    linarith
  rw [e1, e2, e3,
    identifyPrimary_acidemiaMixed hph (by norm_num) (by norm_num)]
  norm_num [assessCompensationInterp]
  decide

/-- C1 (amended): for disorder-mode generation with
`compensation = APPROPRIATE`, *variability disabled*, no secondary disorder
and a primary disorder that is metabolic (acidosis or alkalosis), the
Interpretation Engine's compensation-status classification equals
"Appropriate", for every severity, duration, patient, FiO2, seed and prior
generator state.  (For respiratory primaries the round trip can fail — see
the counterexample — and with variability enabled the noise can move pCO2
out of the expected window.) -/
theorem c1_appropriate_round_trip (d : Disorder) (sev : Severity) (dur : Duration)
    (patient : PatientFactors) (fio2 : ℝ) (seed : Option ℤ) (g : RandomState)
    (hd : d = Disorder.METABOLIC_ACIDOSIS ∨ d = Disorder.METABOLIC_ALKALOSIS) :
    ((generateBloodGas (some d) (some sev) Compensation.APPROPRIATE none dur none
        (fun _ => none) (some patient) fio2 false seed g).1.2).compensation_status
      = "Appropriate" := by
  rcases hd with rfl | rfl <;> rw [disorder_interp_shape] <;> cases sev
  · -- metabolic acidosis, mild: HCO3 18, pCO2 35
    have e1 : (generateForDisorder Disorder.METABOLIC_ACIDOSIS Severity.MILD
        Compensation.APPROPRIATE dur patient.baselinePco2 patient.baselineHco3).pco2
        = 35 := by
      simp only [generateForDisorder, expectedPco2MetabolicAcidosis]
      norm_num
    have e2 : (generateForDisorder Disorder.METABOLIC_ACIDOSIS Severity.MILD
        Compensation.APPROPRIATE dur patient.baselinePco2 patient.baselineHco3).hco3
        = 18 := by
      simp only [generateForDisorder]
      norm_num
    have e3 : (generateForDisorder Disorder.METABOLIC_ACIDOSIS Severity.MILD
        Compensation.APPROPRIATE dur patient.baselinePco2 patient.baselineHco3).ph
        = calculatePhVal 18 35 := by
      simp only [generateForDisorder, expectedPco2MetabolicAcidosis]
      norm_num
    have hph : calculatePhVal 18 35 < 7.35 := by
      unfold calculatePhVal
      have h := logb_ten_lt_div (x := (18 : ℝ) / (0.03 * 35)) 5 4
        (by norm_num) (by norm_num) (by norm_num)
      have h5 : ((5 : ℕ) : ℝ) / ((4 : ℕ) : ℝ) = 1.25 := by norm_num
      rw [h5] at h
      linarith
    rw [e1, e2, e3, identifyPrimary_metAcid hph (by norm_num) (by norm_num)]
    norm_num [assessCompensationInterp, expectedPco2MetabolicAcidosis]
  · -- metabolic acidosis, moderate: HCO3 14, pCO2 29
    have e1 : (generateForDisorder Disorder.METABOLIC_ACIDOSIS Severity.MODERATE
        Compensation.APPROPRIATE dur patient.baselinePco2 patient.baselineHco3).pco2
        = 29 := by
      simp only [generateForDisorder, expectedPco2MetabolicAcidosis]
      norm_num
    have e2 : (generateForDisorder Disorder.METABOLIC_ACIDOSIS Severity.MODERATE
        Compensation.APPROPRIATE dur patient.baselinePco2 patient.baselineHco3).hco3
        = 14 := by
      simp only [generateForDisorder]
      norm_num
    have e3 : (generateForDisorder Disorder.METABOLIC_ACIDOSIS Severity.MODERATE
        Compensation.APPROPRIATE dur patient.baselinePco2 patient.baselineHco3).ph
        = calculatePhVal 14 29 := by
      simp only [generateForDisorder, expectedPco2MetabolicAcidosis]
      norm_num
    have hph : calculatePhVal 14 29 < 7.35 := by
      unfold calculatePhVal
      have h := logb_ten_lt_div (x := (14 : ℝ) / (0.03 * 29)) 5 4
        (by norm_num) (by norm_num) (by norm_num)
      have h5 : ((5 : ℕ) : ℝ) / ((4 : ℕ) : ℝ) = 1.25 := by norm_num
      rw [h5] at h
      linarith
    rw [e1, e2, e3, identifyPrimary_metAcid hph (by norm_num) (by norm_num)]
    norm_num [assessCompensationInterp, expectedPco2MetabolicAcidosis]
  · -- metabolic acidosis, severe: HCO3 8, pCO2 20
    have e1 : (generateForDisorder Disorder.METABOLIC_ACIDOSIS Severity.SEVERE
        Compensation.APPROPRIATE dur patient.baselinePco2 patient.baselineHco3).pco2
        = 20 := by
      simp only [generateForDisorder, expectedPco2MetabolicAcidosis]
      norm_num
    have e2 : (generateForDisorder Disorder.METABOLIC_ACIDOSIS Severity.SEVERE
        Compensation.APPROPRIATE dur patient.baselinePco2 patient.baselineHco3).hco3
        = 8 := by
      simp only [generateForDisorder]
      norm_num
    have e3 : (generateForDisorder Disorder.METABOLIC_ACIDOSIS Severity.SEVERE
        Compensation.APPROPRIATE dur patient.baselinePco2 patient.baselineHco3).ph
        = calculatePhVal 8 20 := by
      simp only [generateForDisorder, expectedPco2MetabolicAcidosis]
      norm_num
    have hph : calculatePhVal 8 20 < 7.35 := by
      unfold calculatePhVal
      have h := logb_ten_lt_div (x := (8 : ℝ) / (0.03 * 20)) 5 4
        (by norm_num) (by norm_num) (by norm_num)
      have h5 : ((5 : ℕ) : ℝ) / ((4 : ℕ) : ℝ) = 1.25 := by norm_num
      rw [h5] at h
      linarith
    rw [e1, e2, e3, identifyPrimary_metAcid hph (by norm_num) (by norm_num)]
    norm_num [assessCompensationInterp, expectedPco2MetabolicAcidosis]
  · -- metabolic alkalosis, mild: HCO3 30, pCO2 42
    have e1 : (generateForDisorder Disorder.METABOLIC_ALKALOSIS Severity.MILD
        Compensation.APPROPRIATE dur patient.baselinePco2 patient.baselineHco3).pco2
        = 42 := by
      simp only [generateForDisorder, expectedPco2MetabolicAlkalosis]
      norm_num
    have e2 : (generateForDisorder Disorder.METABOLIC_ALKALOSIS Severity.MILD
        Compensation.APPROPRIATE dur patient.baselinePco2 patient.baselineHco3).hco3
        = 30 := by
      simp only [generateForDisorder]
      norm_num
    have e3 : (generateForDisorder Disorder.METABOLIC_ALKALOSIS Severity.MILD
        Compensation.APPROPRIATE dur patient.baselinePco2 patient.baselineHco3).ph
        = calculatePhVal 30 42 := by
      simp only [generateForDisorder, expectedPco2MetabolicAlkalosis]
      norm_num
    have hph : 7.45 < calculatePhVal 30 42 := by
      unfold calculatePhVal
      have h := div_lt_logb_ten (x := (30 : ℝ) / (0.03 * 42)) 27 20
        (by norm_num) (by norm_num) (by norm_num)
      have h27 : ((27 : ℕ) : ℝ) / ((20 : ℕ) : ℝ) = 1.35 := by norm_num
      rw [h27] at h
      linarith
    rw [e1, e2, e3, identifyPrimary_metAlk hph (by norm_num) (by norm_num)]
    norm_num [assessCompensationInterp, expectedPco2MetabolicAlkalosis]
  · -- metabolic alkalosis, moderate: HCO3 36, pCO2 46.2
    have e1 : (generateForDisorder Disorder.METABOLIC_ALKALOSIS Severity.MODERATE
        Compensation.APPROPRIATE dur patient.baselinePco2 patient.baselineHco3).pco2
        = 46.2 := by
      simp only [generateForDisorder, expectedPco2MetabolicAlkalosis]
      norm_num
    have e2 : (generateForDisorder Disorder.METABOLIC_ALKALOSIS Severity.MODERATE
        Compensation.APPROPRIATE dur patient.baselinePco2 patient.baselineHco3).hco3
        = 36 := by
      simp only [generateForDisorder]
      norm_num
    have e3 : (generateForDisorder Disorder.METABOLIC_ALKALOSIS Severity.MODERATE
        Compensation.APPROPRIATE dur patient.baselinePco2 patient.baselineHco3).ph
        = calculatePhVal 36 46.2 := by
      simp only [generateForDisorder, expectedPco2MetabolicAlkalosis]
      norm_num
    have hph : 7.45 < calculatePhVal 36 46.2 := by
      unfold calculatePhVal
      have h := div_lt_logb_ten (x := (36 : ℝ) / (0.03 * 46.2)) 27 20
        (by norm_num) (by norm_num) (by norm_num)
      have h27 : ((27 : ℕ) : ℝ) / ((20 : ℕ) : ℝ) = 1.35 := by norm_num
      rw [h27] at h
      linarith
    rw [e1, e2, e3, identifyPrimary_metAlk hph (by norm_num) (by norm_num)]
    norm_num [assessCompensationInterp, expectedPco2MetabolicAlkalosis]
  · -- metabolic alkalosis, severe: HCO3 42, pCO2 50.4
    have e1 : (generateForDisorder Disorder.METABOLIC_ALKALOSIS Severity.SEVERE
        Compensation.APPROPRIATE dur patient.baselinePco2 patient.baselineHco3).pco2
        = 50.4 := by
      simp only [generateForDisorder, expectedPco2MetabolicAlkalosis]
      norm_num
    have e2 : (generateForDisorder Disorder.METABOLIC_ALKALOSIS Severity.SEVERE
        Compensation.APPROPRIATE dur patient.baselinePco2 patient.baselineHco3).hco3
        = 42 := by
      simp only [generateForDisorder]
      norm_num
    have e3 : (generateForDisorder Disorder.METABOLIC_ALKALOSIS Severity.SEVERE
        Compensation.APPROPRIATE dur patient.baselinePco2 patient.baselineHco3).ph
        = calculatePhVal 42 50.4 := by
      simp only [generateForDisorder, expectedPco2MetabolicAlkalosis]
      norm_num
    have hph : 7.45 < calculatePhVal 42 50.4 := by
      unfold calculatePhVal
      have h := div_lt_logb_ten (x := (42 : ℝ) / (0.03 * 50.4)) 27 20
        (by norm_num) (by norm_num) (by norm_num)
      have h27 : ((27 : ℕ) : ℝ) / ((20 : ℕ) : ℝ) = 1.35 := by norm_num
      rw [h27] at h
      linarith
    rw [e1, e2, e3, identifyPrimary_metAlk hph (by norm_num) (by norm_num)]
    norm_num [assessCompensationInterp, expectedPco2MetabolicAlkalosis]

/-- C1 witness: a concrete metabolic-acidosis generation classified
"Appropriate". -/
theorem c1_witness :
    ((generateBloodGas (some Disorder.METABOLIC_ACIDOSIS) (some Severity.MODERATE)
        Compensation.APPROPRIATE none Duration.ACUTE none (fun _ => none)
        (some defaultPatient) 0.21 false none ⟨fun _ => 0, 0⟩).1.2).compensation_status
      = "Appropriate" :=
  c1_appropriate_round_trip Disorder.METABOLIC_ACIDOSIS Severity.MODERATE
    Duration.ACUTE defaultPatient 0.21 none ⟨fun _ => 0, 0⟩ (Or.inl rfl)

/-! ## Claim C3 -/

/-- Every branch of `add_variability` passes the generator stream through
unchanged (only the position advances). -/
lemma addVariability_stream (cfg : VariabilityConfig) (v cv : ℝ)
    (mn mx : Option ℝ) (dist : Distribution) (g : RandomState) :
    ((addVariability cfg v cv mn mx dist g).2).stream = g.stream := by
  unfold addVariability gaussDraw lognormDraw RandomState.next
  split
  · rfl
  · split
    · rfl
    · cases dist <;> by_cases hm : cfg.measurement_error = true <;> simp [hm]

/-- The clamp of `vary_po2` bounds its output below by 20 whenever the
engine is enabled (the PO2 CV is positive). -/
lemma varyPo2_ge20 (cfg : VariabilityConfig) (hen : cfg.enabled = true)
    (hcv : 0 < cfg.po2_cv) (v : ℝ) (g : RandomState) :
    (20 : ℝ) ≤ (varyPo2 cfg v g).1 := by
  unfold varyPo2 addVariability
  rw [hen]
  norm_num [not_le.mpr hcv]

/-- The Hill-equation saturation is strictly between 0 and 100 for positive
PaO2 (the P50 clamp keeps the denominator positive). -/
lemma calculateSao2_bounds {pao2 : ℝ} (h : 0 < pao2) (ph t pco2 dpg : ℝ) :
    0 < calculateSao2 pao2 ph t pco2 dpg ∧ calculateSao2 pao2 ph t pco2 dpg < 100 := by
  unfold calculateSao2
  rw [if_neg (not_le.mpr h)]
  have hp50pos : 0 < calculateP50 ph t pco2 dpg := by
    unfold calculateP50
    have h15 : (15 : ℝ) ≤ max (min (27.0 + (7.40 - ph) * 5.0 + (t - 37.0) * 1.5
        + (pco2 - 40.0) * 0.05 + (dpg - 1.0) * 5.0) 40) 15 := le_max_right _ _
    linarith
  have hppos : 0 < pao2 ^ (2.7 : ℝ) := Real.rpow_pos_of_pos h _
  have hp50p : 0 < calculateP50 ph t pco2 dpg ^ (2.7 : ℝ) :=
    Real.rpow_pos_of_pos hp50pos _
  have hden : 0 < calculateP50 ph t pco2 dpg ^ (2.7 : ℝ) + pao2 ^ (2.7 : ℝ) := by
    linarith
  have hhill_pos : 0 < 100 * pao2 ^ (2.7 : ℝ)
      / (calculateP50 ph t pco2 dpg ^ (2.7 : ℝ) + pao2 ^ (2.7 : ℝ)) := by positivity
  have hhill_lt : 100 * pao2 ^ (2.7 : ℝ)
      / (calculateP50 ph t pco2 dpg ^ (2.7 : ℝ) + pao2 ^ (2.7 : ℝ)) < 100 := by
    rw [div_lt_iff₀ hden]
    nlinarith [hp50p]
  rw [max_eq_left hhill_pos.le, min_eq_left hhill_lt.le]
  exact ⟨hhill_pos, hhill_lt⟩

/-- On the all-ones draw stream, the enabled `vary_sao2` pass strictly
increases any saturation value in `(0, 100)`. -/
lemma varySao2_stream_one (cfg : VariabilityConfig) (hen : cfg.enabled = true)
    (hme : cfg.measurement_error = true) (hmm0 : cfg.measurement_error_magnitude = 0.5)
    (s : ℝ) (g : RandomState) (hg : ∀ n, g.stream n = 1) (hs : 0 < s) (hs2 : s < 100) :
    s < (varySao2 cfg s g).1 := by
  unfold varySao2 addVariability gaussDraw RandomState.next
  rw [hen, hme, hmm0]
  simp only [Bool.not_true, hg]
  norm_num
  rw [abs_of_pos hs]
  exact ⟨Or.inl (by linarith), hs2⟩

/-- C3 (amended): in disorder mode, after the variability passes on the
primary values, every derived value of the returned result is recomputed
from the post-noise primaries — base excess from pH/HCO3/hemoglobin, the
P/F ratio and A-a gradient from PO2/pCO2/FiO2, the anion gap (and its
albumin correction and delta gap) from sodium/chloride/HCO3 — and no
derived value is perturbed directly, except SaO2, which is recomputed from
the post-noise PO2/pH and then receives one additional independent noise
pass.  (Base excess receives no additional noise pass — see the
counterexample.) -/
theorem c3_derived_from_post_noise (pd : Disorder) (sev : Severity)
    (comp : Compensation) (sd : Option Disorder) (dur : Duration)
    (patient : PatientFactors) (fio2 : ℝ) (cfg : VariabilityConfig)
    (g : RandomState) :
    let r := (generateFromDisorder pd sev comp sd dur patient fio2 cfg g).1
    r.base_excess = calculateBaseExcess r.ph r.hco3 r.hemoglobin
      ∧ r.pf_ratio_val = pfRatioVal r.po2 r.fio2
      ∧ r.aa_gradient = calculateAaGradientVal r.po2 r.pco2 r.fio2
      ∧ r.anion_gap = calculateAnionGap r.sodium r.chloride r.hco3
      ∧ r.corrected_anion_gap = correctAnionGapForAlbumin r.anion_gap r.albumin
      ∧ r.delta_gap = calculateDeltaGap r.corrected_anion_gap
      ∧ ∃ g2, r.sao2 = (varySao2 cfg (calculateSao2 r.po2 r.ph) g2).1 :=
  ⟨rfl, rfl, rfl, rfl, rfl, rfl, ⟨_, rfl⟩⟩

set_option maxHeartbeats 3200000 in
set_option maxRecDepth 8000 in
/-- Shape of the disorder-mode SaO2 field: it is the result of one
`vary_sao2` pass applied to the saturation recomputed from the post-noise
PO2/pH, run at the post-primary-noise generator state. -/
lemma gfd_sao2_eq (pd : Disorder) (sev : Severity) (comp : Compensation)
    (sd : Option Disorder) (dur : Duration) (patient : PatientFactors)
    (fio2 : ℝ) (cfg : VariabilityConfig) (g : RandomState) :
    ((generateFromDisorder pd sev comp sd dur patient fio2 cfg g).1).sao2
      = (varySao2 cfg
          (calculateSao2
            (((generateFromDisorder pd sev comp sd dur patient fio2 cfg g).1).po2)
            (((generateFromDisorder pd sev comp sd dur patient fio2 cfg g).1).ph))
          (disorderNoiseState pd sev comp sd dur patient fio2 cfg g)).1 := rfl

/-- The ten primary-value variability passes never change the draw stream:
the state at which the extra SaO2 pass runs carries the incoming stream. -/
lemma disorderNoiseState_stream (pd : Disorder) (sev : Severity)
    (comp : Compensation) (sd : Option Disorder) (dur : Duration)
    (patient : PatientFactors) (fio2 : ℝ) (cfg : VariabilityConfig)
    (g : RandomState) :
    (disorderNoiseState pd sev comp sd dur patient fio2 cfg g).stream
      = g.stream := by
  unfold disorderNoiseState
  simp only [varyPh, varyPco2, varyPo2, varyHco3, varySodium, varyPotassium,
    varyChloride, varyGlucose, varyLactate, varyHemoglobin, addVariability_stream]

/-- Shape of the disorder-mode PO2 field: one `vary_po2` pass. -/
lemma gfd_po2_shape (pd : Disorder) (sev : Severity) (comp : Compensation)
    (sd : Option Disorder) (dur : Duration) (patient : PatientFactors)
    (fio2 : ℝ) (cfg : VariabilityConfig) (g : RandomState) :
    ∃ g3 v, ((generateFromDisorder pd sev comp sd dur patient fio2 cfg g).1).po2
        = (varyPo2 cfg v g3).1 :=
  ⟨_, _, rfl⟩

set_option maxRecDepth 8000 in
/-- C3 counterexample: a disorder-mode run with variability *enabled* and
every raw draw equal to 1.  The returned base excess equals the exact
recomputation from the post-noise pH/HCO3/hemoglobin — zero additional
perturbation — while the returned SaO2 strictly exceeds its recomputation
from the post-noise PO2/pH (its extra noise pass moved it).  Under the
claim, base excess would have received the same kind of independent noise
pass, which on this stream adds a strictly positive term. -/
theorem c3_counterexample :
    ((generateFromDisorder Disorder.METABOLIC_ACIDOSIS Severity.MODERATE
          Compensation.APPROPRIATE none Duration.ACUTE defaultPatient 0.21
          (createVariabilityConfig true none false) ⟨fun _ => 1, 0⟩).1).base_excess
        = calculateBaseExcess
          ((generateFromDisorder Disorder.METABOLIC_ACIDOSIS Severity.MODERATE
            Compensation.APPROPRIATE none Duration.ACUTE defaultPatient 0.21
            (createVariabilityConfig true none false) ⟨fun _ => 1, 0⟩).1).ph
          ((generateFromDisorder Disorder.METABOLIC_ACIDOSIS Severity.MODERATE
            Compensation.APPROPRIATE none Duration.ACUTE defaultPatient 0.21
            (createVariabilityConfig true none false) ⟨fun _ => 1, 0⟩).1).hco3
          ((generateFromDisorder Disorder.METABOLIC_ACIDOSIS Severity.MODERATE
            Compensation.APPROPRIATE none Duration.ACUTE defaultPatient 0.21
            (createVariabilityConfig true none false) ⟨fun _ => 1, 0⟩).1).hemoglobin
      ∧ calculateSao2
          ((generateFromDisorder Disorder.METABOLIC_ACIDOSIS Severity.MODERATE
            Compensation.APPROPRIATE none Duration.ACUTE defaultPatient 0.21
            (createVariabilityConfig true none false) ⟨fun _ => 1, 0⟩).1).po2
          ((generateFromDisorder Disorder.METABOLIC_ACIDOSIS Severity.MODERATE
            Compensation.APPROPRIATE none Duration.ACUTE defaultPatient 0.21
            (createVariabilityConfig true none false) ⟨fun _ => 1, 0⟩).1).ph
        < ((generateFromDisorder Disorder.METABOLIC_ACIDOSIS Severity.MODERATE
            Compensation.APPROPRIATE none Duration.ACUTE defaultPatient 0.21
            (createVariabilityConfig true none false) ⟨fun _ => 1, 0⟩).1).sao2 := by
  refine ⟨rfl, ?_⟩
  have hstream := disorderNoiseState_stream
    Disorder.METABOLIC_ACIDOSIS Severity.MODERATE Compensation.APPROPRIATE none
    Duration.ACUTE defaultPatient 0.21 (createVariabilityConfig true none false)
    ⟨fun _ => 1, 0⟩
  obtain ⟨g3, v, hv⟩ := gfd_po2_shape
    Disorder.METABOLIC_ACIDOSIS Severity.MODERATE Compensation.APPROPRIATE none
    Duration.ACUTE defaultPatient 0.21 (createVariabilityConfig true none false)
    ⟨fun _ => 1, 0⟩
  have hpo2 : (0 : ℝ) < ((generateFromDisorder Disorder.METABOLIC_ACIDOSIS
      Severity.MODERATE Compensation.APPROPRIATE none Duration.ACUTE defaultPatient
      0.21 (createVariabilityConfig true none false) ⟨fun _ => 1, 0⟩).1).po2 := by
    rw [hv]
    have h20 := varyPo2_ge20 (createVariabilityConfig true none false) rfl
      (by norm_num [createVariabilityConfig]) v g3
    linarith
  have hsb := calculateSao2_bounds hpo2
    ((generateFromDisorder Disorder.METABOLIC_ACIDOSIS Severity.MODERATE
      Compensation.APPROPRIATE none Duration.ACUTE defaultPatient 0.21
      (createVariabilityConfig true none false) ⟨fun _ => 1, 0⟩).1).ph 37.0 40.0 1.0
  rw [gfd_sao2_eq]
  exact varySao2_stream_one (createVariabilityConfig true none false) rfl rfl rfl
    _ _ (fun n => by rw [hstream]) hsb.1 hsb.2

end BloodGas
